import Mathlib

/-!
Verification development for a multi-dialect SQL toolkit plugin.

The plugin exposes six tool entry points (analyze, format, transpile,
validate, optimize, execute).  Each entry point receives string-valued
parameters, calls into an underlying SQL engine (parsing, rendering,
optimizing, executing), and yields a list of messages (plain text or
JSON payloads).  The wrapper control flow (parameter validation,
exception handling, metadata deduplication, response assembly) is
embedded here directly from the source; the engine calls are abstracted
as an `Engine` record of possibly-failing functions, and where a claim
depends on concrete engine behaviour the engine is modelled from the
specification (such definitions carry a `Modelled from the spec:`
comment).
-/

/-- JSON-like values: the shape of structured payloads exchanged with the
host (responses, schemas, table data).  Numbers are modelled as integers,
which covers every value the claims touch. -/
inductive Jv where
  | null : Jv
  | bool (b : Bool) : Jv
  | num (n : Int) : Jv
  | str (s : String) : Jv
  | arr (xs : List Jv) : Jv
  | obj (kvs : List (String × Jv)) : Jv

/-- A message yielded back to the host: either plain text
(`create_text_message`) or a JSON payload (`create_json_message`). -/
inductive Msg where
  | text (s : String) : Msg
  | json (j : Jv) : Msg

/-- One structured parse-error detail, as carried on the `errors` list of
the engine parse exception: description, 1-based line and column, and the
three-part source context window. -/
structure ParseErrDetail where
  description : String
  line : Int
  col : Int
  startContext : String
  highlight : String
  endContext : String
  deriving DecidableEq

/-- A Python exception raised by an engine call: the exception class name,
its string rendering, whether it is a `ParseError`, and (for parse errors)
the structured error details. -/
structure SqlError where
  name : String
  message : String
  isParseError : Bool
  errors : List ParseErrDetail
  deriving DecidableEq

/-- Result relation of the executor: ordered column names plus rows. -/
structure ExecTable where
  columns : List String
  rows : List (List Jv)

/-- Python truthiness of a JSON value (`if schema:` and `bool(schema)`):
`None`, `False`, `0`, empty string, empty list and empty dict are falsy. -/
def jvTruthy : Jv → Bool
  | .null => false
  | .bool b => b
  | .num n => n != 0
  | .str s => s ≠ ""
  | .arr xs => !xs.isEmpty
  | .obj kvs => !kvs.isEmpty

/-- First value bound to a key in a JSON object; `none` when the value is
not an object or the key is absent. -/
def jvLookup : Jv → String → Option Jv
  | .obj kvs, k => kvs.lookup k
  | _, _ => none

/-- Whether a JSON object carries a given key. -/
def jvHasKey (j : Jv) (k : String) : Bool :=
  (jvLookup j k).isSome

/-- Empty string becomes `none` (Python `x if x else None`). -/
def noneIfEmpty (s : String) : Option String :=
  if s = "" then none else some s

/-- Embed an optional string as a JSON value (`None` becomes `null`). -/
def optJv : Option String → Jv
  | none => .null
  | some s => .str s

/-- The dialect actually handed to the engine:
`parse_dialect = dialect if dialect else None`, so the empty string
selects auto-detection. -/
def effDialect (d : String) : Option String :=
  if d = "" then none else some d

/-- Order-preserving deduplication, as the source loops do: append an
item only when an equal item is not already present. -/
def dedup [DecidableEq α] (l : List α) : List α :=
  l.foldl (fun acc x => if x ∈ acc then acc else acc ++ [x]) []

mutual

/-- The engine AST: a tagged-variant tree of SQL constructs, following
the node kinds the wrappers traverse (columns, tables, joins, functions,
subqueries, filter/group/order clauses, aliases, selects). -/
inductive SqlAst where
  | column (name : String) (table : String) : SqlAst
  | lit (value : String) : SqlAst
  | aliasNode (child : SqlAst) (aliasName : String) : SqlAst
  | funcNode (fname : String) (args : SqlAstList) : SqlAst
  | binop (op : String) (lhs rhs : SqlAst) : SqlAst
  | tableNode (name : String) (aliasName : String) (db : String) (catalog : String) : SqlAst
  | joinNode (kind : String) (child : SqlAst) (onCond : OptSqlAst) : SqlAst
  | whereNode (child : SqlAst) : SqlAst
  | groupNode (exprs : SqlAstList) : SqlAst
  | orderNode (exprs : SqlAstList) : SqlAst
  | ordered (child : SqlAst) (descFlag : Bool) : SqlAst
  | subquery (child : SqlAst) (aliasName : String) : SqlAst
  | selectNode (projections : SqlAstList) (fromClause : OptSqlAst)
      (joins : SqlAstList) (whereClause : OptSqlAst)
      (groupClause : OptSqlAst) (orderClause : OptSqlAst) : SqlAst

/-- A list of AST nodes (kept as a dedicated inductive so that all
traversals are plain structural recursions). -/
inductive SqlAstList where
  | nil : SqlAstList
  | cons (head : SqlAst) (tail : SqlAstList) : SqlAstList

/-- An optional AST child. -/
inductive OptSqlAst where
  | none : OptSqlAst
  | some (ast : SqlAst) : OptSqlAst

end

mutual

/-- Modelled from the spec: the generic read-only traversal underlying
`find_all` — every node reachable from the root, in depth-first
pre-order. -/
def preorder : SqlAst → List SqlAst
  | .column n t => [.column n t]
  | .lit v => [.lit v]
  | .aliasNode c a => .aliasNode c a :: preorder c
  | .funcNode f args => .funcNode f args :: preorderList args
  | .binop o l r => .binop o l r :: (preorder l ++ preorder r)
  | .tableNode n a d c => [.tableNode n a d c]
  | .joinNode k c oc => .joinNode k c oc :: (preorder c ++ preorderOpt oc)
  | .whereNode c => .whereNode c :: preorder c
  | .groupNode es => .groupNode es :: preorderList es
  | .orderNode es => .orderNode es :: preorderList es
  | .ordered c d => .ordered c d :: preorder c
  | .subquery c a => .subquery c a :: preorder c
  | .selectNode ps f js w g o =>
      .selectNode ps f js w g o ::
        (preorderList ps ++ preorderOpt f ++ preorderList js ++
          preorderOpt w ++ preorderOpt g ++ preorderOpt o)

/-- Pre-order traversal of a node list. -/
def preorderList : SqlAstList → List SqlAst
  | .nil => []
  | .cons h t => preorder h ++ preorderList t

/-- Pre-order traversal of an optional node. -/
def preorderOpt : OptSqlAst → List SqlAst
  | .none => []
  | .some a => preorder a

end

mutual

/-- Modelled from the spec: the engine printer used for the textual
snapshots stored in the metadata (`node.sql()`); a simple total rendering
of the AST back to SQL-like text. -/
def toSql : SqlAst → String
  | .column n t => if t = "" then n else t ++ "." ++ n
  | .lit v => v
  | .aliasNode c a => toSql c ++ " AS " ++ a
  | .funcNode f args => f ++ "(" ++ String.intercalate ", " (toSqlList args) ++ ")"
  | .binop o l r => toSql l ++ " " ++ o ++ " " ++ toSql r
  | .tableNode n a _ _ => if a = "" then n else n ++ " AS " ++ a
  | .joinNode k c oc =>
      (if k = "" then "JOIN " else k ++ " JOIN ") ++ toSql c ++
        (match oc with
          | .none => ""
          | .some cond => " ON " ++ toSql cond)
  | .whereNode c => "WHERE " ++ toSql c
  | .groupNode es => "GROUP BY " ++ String.intercalate ", " (toSqlList es)
  | .orderNode es => "ORDER BY " ++ String.intercalate ", " (toSqlList es)
  | .ordered c d => toSql c ++ (if d then " DESC" else "")
  | .subquery c a =>
      "(" ++ toSql c ++ ")" ++ (if a = "" then "" else " AS " ++ a)
  | .selectNode ps f js w g o =>
      "SELECT " ++ String.intercalate ", " (toSqlList ps) ++
        (match f with
          | .none => ""
          | .some t => " FROM " ++ toSql t) ++
        joinSqlList js ++
        (match w with
          | .none => ""
          | .some c => " " ++ toSql c) ++
        (match g with
          | .none => ""
          | .some c => " " ++ toSql c) ++
        (match o with
          | .none => ""
          | .some c => " " ++ toSql c)

/-- Render each node of a list. -/
def toSqlList : SqlAstList → List String
  | .nil => []
  | .cons h t => toSql h :: toSqlList t

/-- Render a list of join clauses, each preceded by a space. -/
def joinSqlList : SqlAstList → String
  | .nil => ""
  | .cons h t => " " ++ toSql h ++ joinSqlList t

end

/-- Modelled from the spec: the statement kind tag reported as
`type(node).__name__` by the host runtime. -/
def className : SqlAst → String
  | .column .. => "Column"
  | .lit .. => "Literal"
  | .aliasNode .. => "Alias"
  | .funcNode .. => "Func"
  | .binop .. => "Binop"
  | .tableNode .. => "Table"
  | .joinNode .. => "Join"
  | .whereNode .. => "Where"
  | .groupNode .. => "Group"
  | .orderNode .. => "Order"
  | .ordered .. => "Ordered"
  | .subquery .. => "Subquery"
  | .selectNode .. => "Select"

/-! ## Metadata extraction (from `tools/analyze_sql.py`) -/

/-- One extracted table entry: `{name, alias, db, catalog}` with empty
attributes reported as `null`. -/
structure TableInfo where
  name : String
  aliasName : Option String
  db : Option String
  catalog : Option String
  deriving DecidableEq

/-- One extracted column entry: `{name, table, alias_or_name}`; the
qualifier is `null` when the column is unqualified, and for a bare column
node `alias_or_name` coincides with the name. -/
structure ColumnInfo where
  name : String
  table : Option String
  aliasOrName : String
  deriving DecidableEq

/-- One extracted join entry: `{type, table, on_condition}`. -/
structure JoinInfo where
  type : String
  table : String
  onCondition : Option String
  deriving DecidableEq

/-- The table entry built for a table node. -/
def tableInfoOf : SqlAst → Option TableInfo
  | .tableNode n a d c => some ⟨n, noneIfEmpty a, noneIfEmpty d, noneIfEmpty c⟩
  | _ => none

/-- The column entry built for a column node
(`alias_or_name` of a bare column node is its name). -/
def columnInfoOf : SqlAst → Option ColumnInfo
  | .column n t => some ⟨n, noneIfEmpty t, n⟩
  | _ => none

/-- The stream of column entries produced by `find_all(exp.Column)`,
before the deduplicating loop runs. -/
def columnStream (root : SqlAst) : List ColumnInfo :=
  (preorder root).filterMap columnInfoOf

/-- The stream of table entries produced by `find_all(exp.Table)`. -/
def tableStream (root : SqlAst) : List TableInfo :=
  (preorder root).filterMap tableInfoOf

/-- Extracted tables: the source appends each `table_info` only when an
equal dict is not yet present. -/
def extractTables (root : SqlAst) : List TableInfo :=
  dedup (tableStream root)

/-- Extracted columns: the source appends each `column_info` only when an
equal dict is not yet present. -/
def extractColumns (root : SqlAst) : List ColumnInfo :=
  dedup (columnStream root)

/-- The name the join extraction reports for the joined relation
(`join.this.name if hasattr(join.this, 'name') else str(join.this)`). -/
def joinChildName : SqlAst → String
  | .tableNode n _ _ _ => n
  | .column n _ => n
  | .aliasNode _ a => a
  | .subquery _ a => a
  | x => toSql x

/-- The raw join nodes found in the tree: kind, joined relation,
optional ON condition. -/
def joinStream (root : SqlAst) : List (String × SqlAst × OptSqlAst) :=
  (preorder root).filterMap fun x =>
    match x with
    | .joinNode k c oc => some (k, c, oc)
    | _ => none

/-- The join entry built for one join node: an empty kind (a bare
`JOIN ... ON ...`) is reported as `"INNER"`. -/
def mkJoinInfo : String × SqlAst × OptSqlAst → JoinInfo
  | (k, c, oc) =>
      ⟨if k = "" then "INNER" else k,
        joinChildName c,
        match oc with
        | .none => none
        | .some cond => some (toSql cond)⟩

/-- Extracted joins: one entry per join node, no deduplication. -/
def extractJoins (root : SqlAst) : List JoinInfo :=
  (joinStream root).map mkJoinInfo

/-- Alias entries from top-level SELECT projection lists: projections
whose alias attribute is non-empty, paired with their unaliased source
rendered back to text. -/
def aliasEntriesOfList : SqlAstList → List (String × String)
  | .nil => []
  | .cons p t =>
      (match p with
        | .aliasNode c a => if a = "" then [] else [(a, toSql c)]
        | _ => []) ++ aliasEntriesOfList t

/-- All alias entries: for each select node in the tree, its projection
aliases. -/
def extractAliases (root : SqlAst) : List (String × String) :=
  ((preorder root).filterMap fun x =>
    match x with
    | .selectNode ps _ _ _ _ _ => some ps
    | _ => none).flatMap aliasEntriesOfList

/-- The function-call stream: class name and rendered call text of every
function node. -/
def funcStream (root : SqlAst) : List (String × String) :=
  (preorder root).filterMap fun x =>
    match x with
    | .funcNode f args => some (f, toSql (.funcNode f args))
    | _ => none

/-- Function dedup from the source: keep an entry only when its name is
not already present (`if func_name not in [f["name"] for f in functions]`),
so the first occurrence of each name wins. -/
def dedupFuncs (l : List (String × String)) : List (String × String) :=
  l.foldl (fun acc x => if x.1 ∈ acc.map Prod.fst then acc else acc ++ [x]) []

/-- Extracted functions. -/
def extractFunctions (root : SqlAst) : List (String × String) :=
  dedupFuncs (funcStream root)

/-- Subquery entries: enclosing alias (or `null`) and inner statement
text. -/
def extractSubqueries (root : SqlAst) : List (Option String × String) :=
  (preorder root).filterMap fun x =>
    match x with
    | .subquery c a => some (noneIfEmpty a, toSql c)
    | _ => none

/-- WHERE snapshots: the rendered condition of each where node. -/
def extractWhere (root : SqlAst) : List String :=
  (preorder root).filterMap fun x =>
    match x with
    | .whereNode c => some (toSql c)
    | _ => none

/-- GROUP BY snapshots: each expression of each group node. -/
def extractGroupBy (root : SqlAst) : List String :=
  ((preorder root).filterMap fun x =>
    match x with
    | .groupNode es => some es
    | _ => none).flatMap toSqlList

/-- One ORDER BY entry: rendered inner expression plus the descending
flag (`expr.args.get("desc", False)`). -/
def orderEntryOf : SqlAst → String × Bool
  | .ordered c d => (toSql c, d)
  | x => (toSql x, false)

/-- Map the order entries of a node list. -/
def orderEntriesOfList : SqlAstList → List (String × Bool)
  | .nil => []
  | .cons h t => orderEntryOf h :: orderEntriesOfList t

/-- ORDER BY entries across all order nodes. -/
def extractOrderBy (root : SqlAst) : List (String × Bool) :=
  ((preorder root).filterMap fun x =>
    match x with
    | .orderNode es => some es
    | _ => none).flatMap orderEntriesOfList

/-! ## The engine boundary -/

/-- The underlying SQL engine and host runtime, as seen by the wrappers:
each operation either succeeds or raises an exception, modelled as
`Except SqlError`.  `jsonParse` models `json.loads`; `render` models
`ast.sql(dialect, pretty, identify, normalize)`. -/
structure Engine where
  parseOne : Option String → String → Except SqlError (Option SqlAst)
  parseMany : Option String → String → Except SqlError (List (Option SqlAst))
  transpile : String → Option String → String → Bool → Except SqlError (List String)
  optimize : SqlAst → Option Jv → Option String → Except SqlError SqlAst
  executeSql : String → Jv → Option String → Except SqlError ExecTable
  render : SqlAst → Option String → Bool → Bool → Bool → String
  jsonParse : String → Except String Jv

/-- The uniform error payload produced by the outer exception handlers:
`success`, `error_type` (the exception class name, `"ParseError"` for
parse errors), `error_message` and the original SQL. -/
def stdErrObj (e : SqlError) (sql : String) : Jv :=
  .obj [("success", .bool false),
        ("error_type", .str (if e.isParseError then "ParseError" else e.name)),
        ("error_message", .str e.message),
        ("original_sql", .str sql)]

/-- The pair of messages yielded by an outer exception handler: a text
message with the given leader followed by the structured payload. -/
def stdErrMsgs (parseLeader genLeader : String) (e : SqlError) (sql : String) : List Msg :=
  if e.isParseError then
    [Msg.text (parseLeader ++ e.message), Msg.json (stdErrObj e sql)]
  else
    [Msg.text (genLeader ++ e.message), Msg.json (stdErrObj e sql)]

/-! ## Analyze tool (from `tools/analyze_sql.py`) -/

/-- Parameters of the analyze tool. -/
structure AnalyzeParams where
  sql : String
  dialect : String

/-- The table entry as a JSON object. -/
def tableJv (t : TableInfo) : Jv :=
  .obj [("name", .str t.name), ("alias", optJv t.aliasName),
        ("db", optJv t.db), ("catalog", optJv t.catalog)]

/-- The column entry as a JSON object. -/
def columnJv (c : ColumnInfo) : Jv :=
  .obj [("name", .str c.name), ("table", optJv c.table),
        ("alias_or_name", .str c.aliasOrName)]

/-- The join entry as a JSON object. -/
def joinJv (j : JoinInfo) : Jv :=
  .obj [("type", .str j.type), ("table", .str j.table),
        ("on_condition", optJv j.onCondition)]

/-- The successful analyze response object, field for field as the
source builds it. -/
def analyzeResponse (sql dialect : String) (root : SqlAst) : Jv :=
  .obj [("query_type", .str (className root)),
        ("tables", .arr ((extractTables root).map tableJv)),
        ("columns", .arr ((extractColumns root).map columnJv)),
        ("aliases", .arr ((extractAliases root).map fun a =>
          .obj [("alias", .str a.1), ("expression", .str a.2)])),
        ("functions", .arr ((extractFunctions root).map fun f =>
          .obj [("name", .str f.1), ("sql", .str f.2)])),
        ("joins", .arr ((extractJoins root).map joinJv)),
        ("subqueries", .arr ((extractSubqueries root).map fun s =>
          .obj [("alias", optJv s.1), ("sql", .str s.2)])),
        ("where_conditions", .arr ((extractWhere root).map Jv.str)),
        ("group_by", .arr ((extractGroupBy root).map Jv.str)),
        ("order_by", .arr ((extractOrderBy root).map fun o =>
          .obj [("expression", .str o.1), ("desc", .bool o.2)])),
        ("dialect", .str (if dialect = "" then "auto-detected" else dialect)),
        ("original_sql", .str sql)]

/-- The analyze summary text. -/
def analyzeSummary (root : SqlAst) : String :=
  "SQL Analysis:\n- " ++ String.intercalate "\n- "
    ["Query Type: " ++ className root,
     "Tables: " ++ toString (extractTables root).length,
     "Columns: " ++ toString (extractColumns root).length,
     "Joins: " ++ toString (extractJoins root).length,
     "Functions: " ++ toString (extractFunctions root).length]

/-- The analyze tool after the parse call: branch on the parse result as
the source does. -/
def analyzeCont (sql dialect : String) (res : Except SqlError (Option SqlAst)) : List Msg :=
  match res with
  | .error e => stdErrMsgs "SQL Parse Error: " "Error analyzing SQL: " e sql
  | .ok none => [Msg.text "Failed to parse SQL query."]
  | .ok (some root) =>
      [Msg.text (analyzeSummary root), Msg.json (analyzeResponse sql dialect root)]

/-- The analyze tool invocation. -/
def analyzeInvoke (p : AnalyzeParams) (eng : Engine) : List Msg :=
  if p.sql = "" then [Msg.text "SQL query is required."]
  else analyzeCont p.sql p.dialect (eng.parseOne (effDialect p.dialect) p.sql)

/-! ## Format tool (from `tools/format_sql.py`) -/

/-- Parameters of the format tool. -/
structure FormatParams where
  sql : String
  dialect : String
  identifyOpt : Bool
  normalizeOpt : Bool

/-- The successful format response object. -/
def formatResponse (sql dialect resultSql : String) (identifyOpt normalizeOpt : Bool)
    (count : Nat) : Jv :=
  .obj [("original_sql", .str sql),
        ("formatted_sql", .str resultSql),
        ("dialect", .str (if dialect = "" then "auto-detected" else dialect)),
        ("options", .obj [("identify", .bool identifyOpt), ("normalize", .bool normalizeOpt)]),
        ("statement_count", .num count)]

/-- The format tool after the parse call. -/
def formatCont (p : FormatParams) (eng : Engine)
    (res : Except SqlError (List (Option SqlAst))) : List Msg :=
  match res with
  | .error e => stdErrMsgs "SQL Parse Error: " "Error formatting SQL: " e p.sql
  | .ok stmts =>
      if stmts.isEmpty then [Msg.text "Failed to parse SQL query."]
      else
        let formatted := (stmts.filterMap id).map fun st =>
          eng.render st (effDialect p.dialect) true p.identifyOpt p.normalizeOpt
        if formatted.isEmpty then [Msg.text "No valid SQL statements found."]
        else
          let resultSql := String.intercalate ";\n\n" formatted
          [Msg.text ("Successfully formatted " ++ toString formatted.length ++
            " SQL statement(s)"),
           Msg.text ("\n**Formatted SQL:**\n```sql\n" ++ resultSql ++ "\n```"),
           Msg.json (formatResponse p.sql p.dialect resultSql p.identifyOpt
             p.normalizeOpt formatted.length)]

/-- The format tool invocation. -/
def formatInvoke (p : FormatParams) (eng : Engine) : List Msg :=
  if p.sql = "" then [Msg.text "SQL query is required."]
  else formatCont p eng (eng.parseMany (effDialect p.dialect) p.sql)

/-! ## Transpile tool (from `tools/transpile_sql.py`) -/

/-- Parameters of the transpile tool. -/
structure TranspileParams where
  sql : String
  sourceDialect : String
  targetDialect : String
  pretty : Bool

/-- The transpile tool after the transpile call. -/
def transpileCont (p : TranspileParams) (res : Except SqlError (List String)) : List Msg :=
  match res with
  | .error e => stdErrMsgs "SQL Parse Error: " "Error transpiling SQL: " e p.sql
  | .ok [] => [Msg.text "Failed to transpile SQL query."]
  | .ok (t :: ts) =>
      let resultSql := if ts.isEmpty then t else String.intercalate ";\n\n" (t :: ts)
      let srcName := if p.sourceDialect = "" then "auto-detected" else p.sourceDialect
      [Msg.text ("Successfully transpiled SQL from " ++ srcName ++ " to " ++
        p.targetDialect),
       Msg.text ("\n**Transpiled SQL:**\n```sql\n" ++ resultSql ++ "\n```"),
       Msg.json (.obj [("original_sql", .str p.sql),
                       ("transpiled_sql", .str resultSql),
                       ("source_dialect", .str srcName),
                       ("target_dialect", .str p.targetDialect),
                       ("statement_count", .num (ts.length + 1))])]

/-- The transpile tool invocation. -/
def transpileInvoke (p : TranspileParams) (eng : Engine) : List Msg :=
  if p.sql = "" then [Msg.text "SQL query is required."]
  else if p.targetDialect = "" then [Msg.text "Target dialect is required."]
  else transpileCont p
    (eng.transpile p.sql (effDialect p.sourceDialect) p.targetDialect p.pretty)

/-! ## Optimize tool (from `tools/optimize_sql.py`) -/

/-- Parameters of the optimize tool. -/
structure OptimizeParams where
  sql : String
  dialect : String
  schemaStr : String

/-- The note attached when the optimizer call raised:
`"Note: Full optimization requires schema. Basic formatting applied. (...)"`. -/
def optimizeNote (e : SqlError) : String :=
  "Note: Full optimization requires schema. Basic formatting applied. (" ++
    e.message ++ ")"

/-- The successful optimize response object; the `note` key is appended
only when a note was produced. -/
def optimizeResponse (sql dialect optimizedSql : String) (schemaProvided : Bool)
    (note : Option String) : Jv :=
  .obj ([("original_sql", .str sql),
         ("optimized_sql", .str optimizedSql),
         ("dialect", .str (if dialect = "" then "auto-detected" else dialect)),
         ("schema_provided", .bool schemaProvided),
         ("optimization_applied", .bool true)] ++
        (match note with
          | none => []
          | some n => [("note", .str n)]))

/-- The success messages of the optimize tool. -/
def optimizeSuccessMsgs (sql dialect optimizedSql : String) (schemaProvided : Bool)
    (note : Option String) : List Msg :=
  [Msg.text ("Successfully optimized SQL query" ++
     (match note with
       | none => ""
       | some n => "\n" ++ n)),
   Msg.text ("\n**Optimized SQL:**\n```sql\n" ++ optimizedSql ++ "\n```"),
   Msg.json (optimizeResponse sql dialect optimizedSql schemaProvided note)]

/-- The optimize tool after the parse call: decode the schema, call the
optimizer (falling back to the unmodified parsed AST plus a note when it
raises), and render. -/
def optimizeCont (p : OptimizeParams) (eng : Engine)
    (res : Except SqlError (Option SqlAst)) : List Msg :=
  match res with
  | .error e => stdErrMsgs "SQL Parse Error: " "Error optimizing SQL: " e p.sql
  | .ok none => [Msg.text "Failed to parse SQL query."]
  | .ok (some parsed) =>
      match (if p.schemaStr = "" then Except.ok Option.none
             else (eng.jsonParse p.schemaStr).map Option.some) with
      | .error emsg => [Msg.text ("Invalid schema JSON: " ++ emsg)]
      | .ok schemaOpt =>
          let schemaTruthy := match schemaOpt with
            | none => false
            | some j => jvTruthy j
          let schemaArg : Option Jv :=
            if schemaTruthy then schemaOpt else none
          match eng.optimize parsed schemaArg (effDialect p.dialect) with
          | .ok optimized =>
              optimizeSuccessMsgs p.sql p.dialect
                (eng.render optimized (effDialect p.dialect) true false false)
                schemaTruthy none
          | .error optError =>
              optimizeSuccessMsgs p.sql p.dialect
                (eng.render parsed (effDialect p.dialect) true false false)
                schemaTruthy (some (optimizeNote optError))

/-- The optimize tool invocation. -/
def optimizeInvoke (p : OptimizeParams) (eng : Engine) : List Msg :=
  if p.sql = "" then [Msg.text "SQL query is required."]
  else optimizeCont p eng (eng.parseOne (effDialect p.dialect) p.sql)

/-! ## Validate tool (from `tools/validate_sql.py`) -/

/-- Parameters of the validate tool. -/
structure ValidateParams where
  sql : String
  dialect : String

/-- One structured error detail as a JSON object: description, 1-based
line and column, and the three-part context window. -/
def pedJv (d : ParseErrDetail) : Jv :=
  .obj [("description", .str d.description),
        ("line", .num d.line),
        ("col", .num d.col),
        ("start_context", .str d.startContext),
        ("highlight", .str d.highlight),
        ("end_context", .str d.endContext)]

/-- The validate error payload for a parse error: base fields plus, when
the exception carries structured details, an `error_details` list. -/
def validateParseErrObj (e : SqlError) (sql dialect : String) : Jv :=
  .obj ([("valid", .bool false),
         ("error_type", .str "ParseError"),
         ("error_message", .str e.message),
         ("original_sql", .str sql),
         ("dialect", .str (if dialect = "" then "auto-detected" else dialect))] ++
        (if e.errors.isEmpty then []
         else [("error_details", .arr (e.errors.map pedJv))]))

/-- Statement info entries: 1-based index, class name, pretty sql. -/
def stmtInfoJv (eng : Engine) (ix : Nat) (st : SqlAst) : Jv :=
  .obj [("index", .num (ix + 1)),
        ("type", .str (className st)),
        ("sql", .str (eng.render st none true false false))]

/-- The validate tool after the parse call. -/
def validateCont (p : ValidateParams) (eng : Engine)
    (res : Except SqlError (List (Option SqlAst))) : List Msg :=
  match res with
  | .error e =>
      if e.isParseError then
        [Msg.text ("✗ SQL Validation Failed: " ++ e.message),
         Msg.json (validateParseErrObj e p.sql p.dialect)]
      else
        [Msg.text ("Error validating SQL: " ++ e.message),
         Msg.json (.obj [("valid", .bool false),
                         ("error_type", .str e.name),
                         ("error_message", .str e.message),
                         ("original_sql", .str p.sql)])]
  | .ok stmts =>
      let valid := stmts.filterMap id
      if valid.isEmpty then
        [Msg.text "No valid SQL statements found in the query.",
         Msg.json (.obj [("valid", .bool false),
                         ("error", .str "No valid SQL statements found"),
                         ("original_sql", .str p.sql)])]
      else
        let infos := valid.enum.map fun ix => stmtInfoJv eng ix.1 ix.2
        let types := valid.map className
        [Msg.text ("✓ SQL is valid! Found " ++ toString valid.length ++
           " statement(s)."),
         Msg.text ("Statement types: " ++ String.intercalate ", " types),
         Msg.json (.obj [("valid", .bool true),
                         ("dialect", .str (if p.dialect = "" then "auto-detected" else p.dialect)),
                         ("statement_count", .num valid.length),
                         ("statements", .arr infos),
                         ("warnings", .arr []),
                         ("original_sql", .str p.sql)])]

/-- The validate tool invocation. -/
def validateInvoke (p : ValidateParams) (eng : Engine) : List Msg :=
  if p.sql = "" then [Msg.text "SQL query is required."]
  else validateCont p eng (eng.parseMany (effDialect p.dialect) p.sql)

/-! ## Execute tool (from `tools/execute_sql.py`) -/

/-- Parameters of the execute tool. -/
structure ExecuteParams where
  sql : String
  tablesStr : String
  dialect : String

/-- `_serialize_value`: in this model every value is already
JSON-shaped, so the conversion is structure-preserving. -/
def serializeVal : Jv → Jv
  | .null => .null
  | .bool b => .bool b
  | .num n => .num n
  | .str s => .str s
  | .arr xs => .arr (xs.attach.map fun x => serializeVal x.1)
  | .obj kvs => .obj (kvs.attach.map fun kv => (kv.1.1, serializeVal kv.1.2))
decreasing_by
  · have h := List.sizeOf_lt_of_mem x.2
    simp only [Jv.arr.sizeOf_spec]
    omega
  · obtain ⟨⟨k, v⟩, hm⟩ := kv
    have h := List.sizeOf_lt_of_mem hm
    simp only [Prod.mk.sizeOf_spec, Jv.obj.sizeOf_spec] at h ⊢
    omega

/-- Python `str(...)` of a JSON-shaped value, as used for the markdown
result table. -/
def pyStr : Jv → String
  | .null => "None"
  | .bool b => if b then "True" else "False"
  | .num n => toString n
  | .str s => s
  | .arr xs => "[" ++ String.intercalate ", " (xs.attach.map fun x => pyStr x.1) ++ "]"
  | .obj _ => "object"
decreasing_by
  · have h := List.sizeOf_lt_of_mem x.2
    simp only [Jv.arr.sizeOf_spec]
    omega

/-- Whether a JSON value is an object (a row must be a dict). -/
def jvIsObj : Jv → Bool
  | .obj _ => true
  | _ => false

/-- The first table-structure violation, scanning tables in order: a
non-array table value, or a table with a non-object row. -/
def tableStructureError : List (String × Jv) → Option Msg
  | [] => none
  | (n, .arr rows) :: rest =>
      if rows.all jvIsObj then tableStructureError rest
      else some (Msg.text ("Each row in table \x27" ++ n ++ "\x27 must be an object."))
  | (n, _) :: _ =>
      some (Msg.text ("Table \x27" ++ n ++ "\x27 must be an array of row objects."))

/-- Convert one result row (a tuple) into a row object keyed by the
result columns, padding missing positions with `null`. -/
def rowObj (cols : List String) (row : List Jv) : Jv :=
  .obj (cols.enum.map fun ic => (ic.2, serializeVal (row.getD ic.1 .null)))

/-- The markdown result table: header, separator, up to 50 rows, and a
trailing overflow note. -/
def mdTable (cols : List String) (data : List Jv) : String :=
  let header := "| " ++ String.intercalate " | " cols ++ " |"
  let sep := "| " ++ String.intercalate " | " (cols.map fun _ => "---") ++ " |"
  let rowLines := (data.take 50).map fun r =>
    "| " ++ String.intercalate " | "
      (cols.map fun c => pyStr ((jvLookup r c).getD (.str ""))) ++ " |"
  String.intercalate "\n" (header :: sep :: rowLines) ++
    (if data.length > 50
     then "\n... and " ++ toString (data.length - 50) ++ " more rows"
     else "")

/-- The execute tool invocation: parameter checks, tables JSON decode and
structure validation, the engine call with its own failure payload, and
result conversion. -/
def executeInvoke (p : ExecuteParams) (eng : Engine) : List Msg :=
  if p.sql = "" then [Msg.text "SQL query is required."]
  else if p.tablesStr = "" then [Msg.text "Data tables are required."]
  else
    match eng.jsonParse p.tablesStr with
    | .error emsg => [Msg.text ("Invalid tables JSON: " ++ emsg)]
    | .ok tv =>
        match tv with
        | .obj entries =>
            match tableStructureError entries with
            | some m => [m]
            | none =>
                match eng.executeSql p.sql (.obj entries) (effDialect p.dialect) with
                | .error e =>
                    [Msg.text ("Query execution failed: " ++ e.message),
                     Msg.json (.obj [("success", .bool false),
                                     ("error", .str e.message),
                                     ("original_sql", .str p.sql)])]
                | .ok tbl =>
                    let cols := tbl.columns
                    let data := tbl.rows.map (rowObj cols)
                    let response : Jv :=
                      .obj [("success", .bool true),
                            ("row_count", .num data.length),
                            ("columns", .arr (cols.map Jv.str)),
                            ("data", .arr data),
                            ("original_sql", .str p.sql),
                            ("dialect", .str (if p.dialect = "" then "auto-detected" else p.dialect))]
                    [Msg.text ("Query executed successfully. Returned " ++
                       toString data.length ++ " row(s).")] ++
                      (if !data.isEmpty && !cols.isEmpty then
                        [Msg.text ("\n**Results:**\n" ++ mdTable cols data)]
                       else []) ++
                      [Msg.json response]
        | _ => [Msg.text "Tables must be a JSON object with table names as keys."]

/-! ## A default engine and the spec-modelled executor -/

/-- A generic engine exception used by stub engines. -/
def stubError : SqlError := ⟨"RuntimeError", "engine stub", false, []⟩

/-- A baseline engine for instantiating universally quantified theorems:
every operation is a stub. -/
def defaultEngine : Engine where
  parseOne := fun _ _ => .ok none
  parseMany := fun _ _ => .ok []
  transpile := fun _ _ _ _ => .ok []
  optimize := fun a _ _ => .ok a
  executeSql := fun _ _ _ => .error stubError
  render := fun _ _ _ _ _ => ""
  jsonParse := fun _ => .error "invalid"

/-- A single-aggregate query `SELECT f(col) AS alias FROM table`. -/
structure AggQuery where
  funcName : String
  col : String
  aliasName : String
  table : String

/-- The evaluation-time type error of the executor. -/
def evalTypeError : SqlError := ⟨"ExecuteError", "type mismatch", false, []⟩

/-- Read a value as an integer, or fail with a typed evaluation error
(the spec forbids silent coercion). -/
def jvInt : Jv → Except SqlError Int
  | .num n => .ok n
  | _ => .error evalTypeError

/-- The field of a row object (absent fields read as null). -/
def rowField (kvs : List (String × Jv)) (k : String) : Jv :=
  (kvs.lookup k).getD .null

/-- Sum an integer column over a list of row objects. -/
def sumColVals (col : String) : List Jv → Except SqlError Int
  | [] => .ok 0
  | r :: rs =>
      match r with
      | .obj kvs => do
          let v ← jvInt (rowField kvs col)
          let s ← sumColVals col rs
          .ok (v + s)
      | _ => .error evalTypeError

/-- Modelled from the spec: the executor (absent from the sources, which
call `sqlglot.executor.execute`) on the restricted statement class
`SELECT SUM(col) AS alias FROM table` — aggregate over the single
whole-table partition of in-memory rows, producing a one-row relation. -/
def specExecuteAgg (q : AggQuery) (tables : Jv) : Except SqlError ExecTable :=
  if q.funcName = "SUM" then
    match tables with
    | .obj ts =>
        match ts.lookup q.table with
        | some (.arr rows) => do
            let s ← sumColVals q.col rows
            .ok ⟨[q.aliasName], [[.num s]]⟩
        | _ => .error ⟨"ExecuteError", "table not found", false, []⟩
    | _ => .error ⟨"SchemaParseError", "tables must be an object", false, []⟩
  else .error ⟨"UnsupportedConstruct", "unsupported aggregate", false, []⟩

/-! ## Deduplication lemmas -/

theorem mem_dedup_foldl [DecidableEq α] (l : List α) (acc : List α) (a : α) :
    a ∈ l.foldl (fun acc x => if x ∈ acc then acc else acc ++ [x]) acc ↔
      a ∈ acc ∨ a ∈ l := by
  induction l generalizing acc with
  | nil => simp
  | cons x xs ih =>
    simp only [List.foldl_cons]
    by_cases hx : x ∈ acc
    · rw [if_pos hx, ih]
      simp only [List.mem_cons]
      constructor
      · rintro (h | h)
        · exact Or.inl h
        · exact Or.inr (Or.inr h)
      · rintro (h | rfl | h)
        · exact Or.inl h
        · exact Or.inl hx
        · exact Or.inr h
    · rw [if_neg hx, ih]
      simp only [List.mem_append, List.mem_singleton, List.mem_cons]
      tauto

theorem nodup_dedup_foldl [DecidableEq α] (l : List α) (acc : List α)
    (h : acc.Nodup) :
    (l.foldl (fun acc x => if x ∈ acc then acc else acc ++ [x]) acc).Nodup := by
  induction l generalizing acc with
  | nil => simpa using h
  | cons x xs ih =>
    simp only [List.foldl_cons]
    by_cases hx : x ∈ acc
    · rw [if_pos hx]; exact ih acc h
    · rw [if_neg hx]
      exact ih (acc ++ [x]) (by simp [List.nodup_append, h, hx])

theorem mem_dedup [DecidableEq α] (l : List α) (a : α) :
    a ∈ dedup l ↔ a ∈ l := by
  unfold dedup
  rw [mem_dedup_foldl]
  simp

theorem nodup_dedup [DecidableEq α] (l : List α) : (dedup l).Nodup :=
  nodup_dedup_foldl l [] List.nodup_nil

theorem count_dedup_eq_one [DecidableEq α] (l : List α) (a : α) (h : a ∈ l) :
    (dedup l).count a = 1 :=
  List.count_eq_one_of_mem (nodup_dedup l) ((mem_dedup l a).mpr h)

/-- `_serialize_value` is the identity on JSON-shaped values. -/
theorem serializeVal_id : ∀ (j : Jv), serializeVal j = j
  | .null => by simp [serializeVal]
  | .bool b => by simp [serializeVal]
  | .num n => by simp [serializeVal]
  | .str s => by simp [serializeVal]
  | .arr xs => by
      rw [serializeVal]
      congr 1
      calc xs.attach.map (fun x => serializeVal x.1)
          = xs.attach.map (fun x => x.1) := by
            apply List.map_congr_left
            intro x _
            exact serializeVal_id x.1
        _ = xs := List.attach_map_subtype_val xs
  | .obj kvs => by
      rw [serializeVal]
      congr 1
      calc kvs.attach.map (fun kv => (kv.1.1, serializeVal kv.1.2))
          = kvs.attach.map (fun kv => kv.1) := by
            apply List.map_congr_left
            intro kv _
            rw [serializeVal_id kv.1.2]
        _ = kvs := List.attach_map_subtype_val kvs
decreasing_by
  · have h := List.sizeOf_lt_of_mem x.2
    simp only [Jv.arr.sizeOf_spec]
    omega
  · obtain ⟨⟨k, v⟩, hm⟩ := kv
    have h := List.sizeOf_lt_of_mem hm
    simp only [Prod.mk.sizeOf_spec, Jv.obj.sizeOf_spec] at h ⊢
    omega

/-! ## A concrete mini engine for the round-trip property

The parser and printer themselves live in the wrapped library, not in
the sources; following the specification they are modelled here
concretely for a small statement class
(`SELECT cols FROM table [alias]`, with optionally qualified columns),
so that the render/re-parse round trip is an actual theorem about
executable code rather than an assumption. -/

namespace MiniSql

/-- SQL text is a character sequence. -/
abbrev Text := List Char

/-- Identifiers of the mini dialect: non-empty, lowercase letters only
(so they never collide with the uppercase keywords or punctuation). -/
def identOk (s : List Char) : Bool :=
  !s.isEmpty && s.all Char.isLower

/-- An optionally qualified column reference. -/
structure MCol where
  table : Option (List Char)
  name : List Char
  deriving DecidableEq

/-- A parsed statement: projection list, table, optional alias. -/
structure MAst where
  cols : List MCol
  table : List Char
  aliasName : Option (List Char)
  deriving DecidableEq

/-- The SELECT keyword token. -/
def kwSelect : List Char := ['S', 'E', 'L', 'E', 'C', 'T']

/-- The FROM keyword token. -/
def kwFrom : List Char := ['F', 'R', 'O', 'M']

/-- The comma token. -/
def commaTok : List Char := [',']

/-- Render one column reference (`t.x` or `x`). -/
def renderCol (c : MCol) : List Char :=
  match c.table with
  | none => c.name
  | some t => t ++ '.' :: c.name

/-- Render the projection list as tokens separated by comma tokens. -/
def colsTokens : List MCol → List (List Char)
  | [] => []
  | [c] => [renderCol c]
  | c :: c2 :: cs => renderCol c :: commaTok :: colsTokens (c2 :: cs)

/-- The token sequence of a statement. -/
def renderTokens (a : MAst) : List (List Char) :=
  kwSelect :: (colsTokens a.cols ++ kwFrom :: a.table ::
    (match a.aliasName with
      | none => []
      | some al => [al]))

/-- Join tokens with single spaces. -/
def detok : List (List Char) → List Char
  | [] => []
  | [t] => t
  | t :: t2 :: ts => t ++ ' ' :: detok (t2 :: ts)

/-- The printer: render a statement to text. -/
def render (a : MAst) : Text := detok (renderTokens a)

/-- Split on a separator character, dropping empty segments; the
accumulator holds the current segment reversed. -/
def splitChAux (sep : Char) : List Char → List Char → List (List Char)
  | [], acc => if acc.isEmpty then [] else [acc.reverse]
  | c :: cs, acc =>
      if c = sep then
        (if acc.isEmpty then splitChAux sep cs []
         else acc.reverse :: splitChAux sep cs [])
      else splitChAux sep cs (c :: acc)

/-- Split on a separator character. -/
def splitCh (sep : Char) (s : List Char) : List (List Char) :=
  splitChAux sep s []

/-- The lexer: whitespace-separated tokens. -/
def tokenize (s : Text) : List (List Char) := splitCh ' ' s

/-- Split a column token at dots. -/
def splitDot (t : List Char) : List (List Char) := splitCh '.' t

/-- Parse one column token (`x` or `t.x`), validating identifiers. -/
def parseColTok (t : List Char) : Except String MCol :=
  match splitDot t with
  | [n] => if identOk n then .ok ⟨none, n⟩ else .error "invalid column name"
  | [q, n] =>
      if identOk q && identOk n then .ok ⟨some q, n⟩
      else .error "invalid column name"
  | _ => .error "invalid column reference"

/-- Parse a comma-separated projection list, returning the columns and
the unconsumed tokens. -/
def parseColsTok : List (List Char) → Except String (List MCol × List (List Char))
  | [] => .error "expected column"
  | [t] =>
      match parseColTok t with
      | .ok c => .ok ([c], [])
      | .error e => .error e
  | t :: r :: rest =>
      match parseColTok t with
      | .error e => .error e
      | .ok c =>
          if r = commaTok then
            match parseColsTok rest with
            | .ok (cs, rem) => .ok (c :: cs, rem)
            | .error e => .error e
          else .ok ([c], r :: rest)

/-- Parse a token sequence into a statement. -/
def parseTokens : List (List Char) → Except String MAst
  | [] => .error "empty input"
  | sel :: rest =>
      if sel = kwSelect then
        match parseColsTok rest with
        | .error e => .error e
        | .ok (cs, kw :: tbl :: rest2) =>
            if kw = kwFrom && identOk tbl then
              match rest2 with
              | [] => .ok ⟨cs, tbl, none⟩
              | [al] =>
                  if identOk al then .ok ⟨cs, tbl, some al⟩
                  else .error "invalid alias"
              | _ => .error "unexpected trailing tokens"
            else .error "expected FROM and a table name"
        | .ok (_, _) => .error "expected FROM clause"
      else .error "expected SELECT"

/-- The parser: text to statement or diagnostic. -/
def parse (s : Text) : Except String MAst := parseTokens (tokenize s)

/-- One extracted column fact with the dedup key
`(name, qualifier, effective alias)`. -/
structure MColInfo where
  name : List Char
  table : Option (List Char)
  aliasOrName : List Char
  deriving DecidableEq

/-- The column fact of a column reference. -/
def mColInfo (c : MCol) : MColInfo := ⟨c.name, c.table, c.name⟩

/-- The metadata result of the mini dialect: statement kind, deduplicated
columns, table, alias. -/
structure MMeta where
  queryType : String
  columns : List MColInfo
  table : List Char
  aliasName : Option (List Char)
  deriving DecidableEq

/-- Metadata extraction over the mini AST, deduplicating columns with
the same fold the tool uses. -/
def extract (a : MAst) : MMeta :=
  ⟨"Select", dedup (a.cols.map mColInfo), a.table, a.aliasName⟩

/-- Well-formedness of a column reference. -/
def colOk (c : MCol) : Bool :=
  identOk c.name &&
    (match c.table with
      | none => true
      | some t => identOk t)

/-- Well-formedness of a statement: exactly the shape the parser can
produce. -/
def wfAst (a : MAst) : Bool :=
  a.cols.all colOk && !a.cols.isEmpty && identOk a.table &&
    (match a.aliasName with
      | none => true
      | some al => identOk al)

end MiniSql

namespace MiniSql

theorem bool_and_split {a b : Bool} (h : (a && b) = true) :
    a = true ∧ b = true := by
  simp only [Bool.and_eq_true] at h
  exact h

theorem lower_ne_space {c : Char} (h : c.isLower = true) : c ≠ ' ' := by
  rintro rfl
  exact absurd h (by decide)

theorem lower_ne_dot {c : Char} (h : c.isLower = true) : c ≠ '.' := by
  rintro rfl
  exact absurd h (by decide)

theorem identOk_ne_nil {s : List Char} (h : identOk s = true) : s ≠ [] := by
  rcases bool_and_split h with ⟨h1, _⟩
  intro hs
  rw [hs] at h1
  exact absurd h1 (by decide)

theorem identOk_all_lower {s : List Char} (h : identOk s = true) :
    ∀ c ∈ s, c.isLower = true := by
  rcases bool_and_split h with ⟨_, h2⟩
  exact fun c hc => List.all_eq_true.mp h2 c hc

theorem identOk_no_space {s : List Char} (h : identOk s = true) :
    ∀ c ∈ s, c ≠ ' ' :=
  fun c hc => lower_ne_space (identOk_all_lower h c hc)

theorem identOk_no_dot {s : List Char} (h : identOk s = true) :
    ∀ c ∈ s, c ≠ '.' :=
  fun c hc => lower_ne_dot (identOk_all_lower h c hc)

theorem reverse_isEmpty_false {w : List Char} (h : w ≠ []) :
    w.reverse.isEmpty = false := by
  simp [List.isEmpty_iff, h]

theorem splitChAux_cons_ne (sep c : Char) (cs acc : List Char) (hc : c ≠ sep) :
    splitChAux sep (c :: cs) acc = splitChAux sep cs (c :: acc) := by
  simp [splitChAux, hc]

theorem splitChAux_cons_sep (sep : Char) (cs acc : List Char)
    (h : acc.isEmpty = false) :
    splitChAux sep (sep :: cs) acc = acc.reverse :: splitChAux sep cs [] := by
  simp [splitChAux, h]

theorem splitChAux_nil_ne (sep : Char) (acc : List Char)
    (h : acc.isEmpty = false) : splitChAux sep [] acc = [acc.reverse] := by
  simp [splitChAux, h]

theorem splitChAux_append (sep : Char) (w : List Char) (rest acc : List Char)
    (hw : ∀ c ∈ w, c ≠ sep) :
    splitChAux sep (w ++ rest) acc = splitChAux sep rest (w.reverse ++ acc) := by
  induction w generalizing acc with
  | nil => simp
  | cons c cs ih =>
    have hc : c ≠ sep := hw c (List.mem_cons_self c cs)
    rw [List.cons_append, splitChAux_cons_ne sep c _ _ hc,
      ih (c :: acc) (fun x hx => hw x (List.mem_cons_of_mem c hx))]
    simp

theorem splitCh_single (sep : Char) (w : List Char) (hne : w ≠ [])
    (hw : ∀ c ∈ w, c ≠ sep) : splitCh sep w = [w] := by
  unfold splitCh
  have h := splitChAux_append sep w [] [] hw
  rw [List.append_nil] at h
  rw [h, List.append_nil, splitChAux_nil_ne sep _ (reverse_isEmpty_false hne),
    List.reverse_reverse]

theorem tokenize_detok (ts : List (List Char))
    (h : ∀ t ∈ ts, t ≠ [] ∧ ∀ c ∈ t, c ≠ ' ') :
    tokenize (detok ts) = ts := by
  induction ts with
  | nil => rfl
  | cons t ts ih =>
    cases ts with
    | nil =>
      have ht := h t (List.mem_cons_self t [])
      exact splitCh_single ' ' t ht.1 ht.2
    | cons t2 ts2 =>
      have ht := h t (List.mem_cons_self t _)
      show splitChAux ' ' (t ++ ' ' :: detok (t2 :: ts2)) [] = t :: t2 :: ts2
      rw [splitChAux_append ' ' t _ [] ht.2, List.append_nil,
        splitChAux_cons_sep ' ' _ _ (reverse_isEmpty_false ht.1),
        List.reverse_reverse]
      exact congrArg (t :: ·) (ih (fun x hx => h x (List.mem_cons_of_mem t hx)))

theorem splitDot_single (n : List Char) (h : identOk n = true) :
    splitDot n = [n] :=
  splitCh_single '.' n (identOk_ne_nil h) (identOk_no_dot h)

theorem splitDot_qualified (q n : List Char) (hq : identOk q = true)
    (hn : identOk n = true) : splitDot (q ++ '.' :: n) = [q, n] := by
  unfold splitDot splitCh
  rw [splitChAux_append '.' q _ [] (identOk_no_dot hq), List.append_nil,
    splitChAux_cons_sep '.' _ _ (reverse_isEmpty_false (identOk_ne_nil hq)),
    List.reverse_reverse]
  exact congrArg (q :: ·) (splitDot_single n hn)

theorem parseColTok_renderCol (c : MCol) (h : colOk c = true) :
    parseColTok (renderCol c) = .ok c := by
  obtain ⟨tq, n⟩ := c
  unfold colOk at h
  rcases bool_and_split h with ⟨hn, ht⟩
  cases tq with
  | none =>
    show parseColTok n = _
    unfold parseColTok
    rw [splitDot_single n hn]
    simp [hn]
  | some q =>
    have htq : identOk q = true := ht
    show parseColTok (q ++ '.' :: n) = _
    unfold parseColTok
    rw [splitDot_qualified q n htq hn]
    simp [hn, htq]

theorem parseColsTok_render (cols : List MCol)
    (hak : ∀ c ∈ cols, colOk c = true) (r : List Char) (rs : List (List Char))
    (hr : r ≠ commaTok) (hne : cols ≠ []) :
    parseColsTok (colsTokens cols ++ r :: rs) = .ok (cols, r :: rs) := by
  induction cols with
  | nil => exact absurd rfl hne
  | cons c cs ih =>
    have hc := hak c (List.mem_cons_self c _)
    cases cs with
    | nil =>
      simp only [colsTokens, List.cons_append, List.nil_append]
      simp [parseColsTok, parseColTok_renderCol c hc, hr]
    | cons c2 cs2 =>
      have hrec := ih (fun x hx => hak x (List.mem_cons_of_mem c hx))
        (List.cons_ne_nil c2 cs2)
      show parseColsTok (renderCol c :: commaTok ::
        (colsTokens (c2 :: cs2) ++ r :: rs)) = _
      simp only [parseColsTok, parseColTok_renderCol c hc, if_pos rfl]
      rw [hrec]
      simp

theorem renderCol_wf (c : MCol) (h : colOk c = true) :
    renderCol c ≠ [] ∧ ∀ ch ∈ renderCol c, ch ≠ ' ' := by
  obtain ⟨tq, n⟩ := c
  unfold colOk at h
  rcases bool_and_split h with ⟨hn, ht⟩
  cases tq with
  | none => exact ⟨identOk_ne_nil hn, identOk_no_space hn⟩
  | some q =>
    have htq : identOk q = true := ht
    constructor
    · show q ++ '.' :: n ≠ []
      intro hq
      exact absurd (List.append_eq_nil.mp hq).1 (identOk_ne_nil htq)
    · intro ch hch
      simp only [renderCol, List.mem_append, List.mem_cons] at hch
      rcases hch with h1 | h1 | h1
      · exact identOk_no_space htq ch h1
      · rw [h1]; decide
      · exact identOk_no_space hn ch h1

theorem mem_colsTokens (t : List Char) (cols : List MCol)
    (h : t ∈ colsTokens cols) :
    t = commaTok ∨ ∃ c, c ∈ cols ∧ t = renderCol c := by
  induction cols with
  | nil => simp [colsTokens] at h
  | cons c cs ih =>
    cases cs with
    | nil =>
      simp only [colsTokens, List.mem_singleton] at h
      exact Or.inr ⟨c, List.mem_cons_self c _, h⟩
    | cons c2 cs2 =>
      simp only [colsTokens, List.mem_cons] at h
      rcases h with rfl | rfl | h
      · exact Or.inr ⟨c, List.mem_cons_self c _, rfl⟩
      · exact Or.inl rfl
      · rcases ih h with h1 | ⟨c3, hc3, rfl⟩
        · exact Or.inl h1
        · exact Or.inr ⟨c3, List.mem_cons_of_mem c hc3, rfl⟩

theorem wfAst_parts {a : MAst} (h : wfAst a = true) :
    a.cols.all colOk = true ∧ a.cols ≠ [] ∧ identOk a.table = true ∧
      (match a.aliasName with
        | none => true
        | some al => identOk al) = true := by
  unfold wfAst at h
  rcases bool_and_split h with ⟨h123, h4⟩
  rcases bool_and_split h123 with ⟨h12, h3⟩
  rcases bool_and_split h12 with ⟨h1, h2⟩
  refine ⟨h1, ?_, h3, h4⟩
  intro hc
  rw [hc] at h2
  exact absurd h2 (by decide)

theorem renderTokens_wf (a : MAst) (h : wfAst a = true) :
    ∀ t ∈ renderTokens a, t ≠ [] ∧ ∀ c ∈ t, c ≠ ' ' := by
  obtain ⟨h1, _, h3, h4⟩ := wfAst_parts h
  intro t ht
  simp only [renderTokens, List.mem_cons, List.mem_append] at ht
  rcases ht with rfl | ht | ht
  · exact ⟨by decide, by decide⟩
  · rcases mem_colsTokens t a.cols ht with rfl | ⟨c, hc, rfl⟩
    · exact ⟨by decide, by decide⟩
    · exact renderCol_wf c (List.all_eq_true.mp h1 c hc)
  · rcases ht with rfl | rfl | ht
    · exact ⟨by decide, by decide⟩
    · exact ⟨identOk_ne_nil h3, identOk_no_space h3⟩
    · cases hal : a.aliasName with
      | none => rw [hal] at ht; simp at ht
      | some al =>
        rw [hal] at ht
        simp only [List.mem_singleton] at ht
        rw [hal] at h4
        subst ht
        exact ⟨identOk_ne_nil h4, identOk_no_space h4⟩

theorem parseTokens_renderTokens (a : MAst) (h : wfAst a = true) :
    parseTokens (renderTokens a) = .ok a := by
  obtain ⟨h1, h2, h3, h4⟩ := wfAst_parts h
  simp only [renderTokens, parseTokens, if_pos rfl]
  rw [parseColsTok_render a.cols (fun c hc => List.all_eq_true.mp h1 c hc)
    kwFrom _ (by decide) h2]
  simp only [h3]
  cases hal : a.aliasName with
  | none =>
    simp only []
    rw [← hal]
    simp
  | some al =>
    rw [hal] at h4
    have h5 : identOk al = true := h4
    simp only []
    rw [← hal]
    simp [h5]

theorem parseColTok_ok_colOk {t : List Char} {c : MCol}
    (h : parseColTok t = .ok c) : colOk c = true := by
  unfold parseColTok at h
  split at h
  · split at h
    · injection h with h1
      subst h1
      simp only [colOk]
      next hn => simp [hn]
    · cases h
  · split at h
    · injection h with h1
      subst h1
      simp only [colOk]
      next hb =>
        rcases bool_and_split hb with ⟨hq, hn⟩
        simp [hq, hn]
    · cases h
  · cases h

theorem parseColsTok_ok : ∀ (ts : List (List Char)) (cs : List MCol)
    (rem : List (List Char)), parseColsTok ts = .ok (cs, rem) →
    (∀ c ∈ cs, colOk c = true) ∧ cs ≠ []
  | [], cs, rem => by
      intro h
      simp [parseColsTok] at h
  | [t], cs, rem => by
      intro h
      simp only [parseColsTok] at h
      cases hp : parseColTok t with
      | error e => rw [hp] at h; cases h
      | ok c =>
          rw [hp] at h
          injection h with h1
          have hc := parseColTok_ok_colOk hp
          have h2 := congrArg Prod.fst h1
          simp only at h2
          subst h2
          refine ⟨?_, List.cons_ne_nil c []⟩
          intro x hx
          rw [List.mem_singleton] at hx
          subst hx
          exact hc
  | t :: r :: rest, cs, rem => by
      intro h
      simp only [parseColsTok] at h
      cases hp : parseColTok t with
      | error e => rw [hp] at h; cases h
      | ok c =>
          rw [hp] at h
          dsimp only at h
          have hc := parseColTok_ok_colOk hp
          by_cases hr : r = commaTok
          · rw [if_pos hr] at h
            cases hrec : parseColsTok rest with
            | error e => rw [hrec] at h; cases h
            | ok p =>
                obtain ⟨cs2, rem2⟩ := p
                rw [hrec] at h
                injection h with h1
                have h2 := congrArg Prod.fst h1
                simp only at h2
                subst h2
                obtain ⟨hall, _⟩ := parseColsTok_ok rest cs2 rem2 hrec
                refine ⟨?_, List.cons_ne_nil c cs2⟩
                intro x hx
                rcases List.mem_cons.mp hx with rfl | hx2
                · exact hc
                · exact hall x hx2
          · rw [if_neg hr] at h
            injection h with h1
            have h2 := congrArg Prod.fst h1
            simp only at h2
            subst h2
            refine ⟨?_, List.cons_ne_nil c []⟩
            intro x hx
            rw [List.mem_singleton] at hx
            subst hx
            exact hc

theorem parse_ok_wf {s : Text} {a : MAst} (h : parse s = .ok a) :
    wfAst a = true := by
  unfold parse at h
  cases hts : tokenize s with
  | nil => rw [hts] at h; cases h
  | cons sel rest =>
      rw [hts] at h
      simp only [parseTokens] at h
      by_cases hsel : sel = kwSelect
      · rw [if_pos hsel] at h
        cases hpc : parseColsTok rest with
        | error e => rw [hpc] at h; cases h
        | ok p =>
            obtain ⟨cs, rem⟩ := p
            rw [hpc] at h
            obtain ⟨hall, hne⟩ := parseColsTok_ok rest cs rem hpc
            cases rem with
            | nil => cases h
            | cons kw rem1 =>
                cases rem1 with
                | nil => cases h
                | cons tbl rest2 =>
                    dsimp only at h
                    by_cases hkw : (decide (kw = kwFrom) && identOk tbl) = true
                    · rw [if_pos hkw] at h
                      rcases bool_and_split hkw with ⟨_, htbl⟩
                      cases rest2 with
                      | nil =>
                          injection h with h1
                          subst h1
                          simp only [wfAst, List.all_eq_true, htbl,
                            List.isEmpty_iff, hne, Bool.and_eq_true]
                          simp [List.all_eq_true, List.isEmpty_iff, hne]
                          exact hall
                      | cons al rest3 =>
                          cases rest3 with
                          | nil =>
                              dsimp only at h
                              by_cases hal : identOk al = true
                              · rw [if_pos hal] at h
                                injection h with h1
                                subst h1
                                simp only [wfAst, List.all_eq_true, htbl,
                                  List.isEmpty_iff, hne, Bool.and_eq_true]
                                simp [List.all_eq_true, List.isEmpty_iff, hne,
                                  hal]
                                exact hall
                              · rw [if_neg hal] at h; cases h
                          | cons x xs => cases h
                    · rw [if_neg hkw] at h; cases h
      · rw [if_neg hsel] at h; cases h

theorem parse_render_of_parse {s : Text} {a : MAst} (h : parse s = .ok a) :
    parse (render a) = .ok a := by
  have hwf := parse_ok_wf h
  unfold parse render
  rw [tokenize_detok (renderTokens a) (renderTokens_wf a hwf)]
  exact parseTokens_renderTokens a hwf

end MiniSql

/-! ## Concrete fixtures -/

/-- The AST of `SELECT a.x, a.x FROM t a`. -/
def dupColAst : SqlAst :=
  .selectNode (.cons (.column "x" "a") (.cons (.column "x" "a") .nil))
    (.some (.tableNode "t" "a" "" "")) .nil .none .none .none

/-- The AST of `SELECT * FROM a JOIN b ON a.id = b.id` (a bare join with
no explicit kind). -/
def bareJoinAst : SqlAst :=
  .selectNode (.cons (.lit "*") .nil) (.some (.tableNode "a" "" "" ""))
    (.cons (.joinNode "" (.tableNode "b" "" "" "")
      (.some (.binop "=" (.column "id" "a") (.column "id" "b")))) .nil)
    .none .none .none

/-- The AST of `SELECT 1`. -/
def select1Ast : SqlAst :=
  .selectNode (.cons (.lit "1") .nil) .none .nil .none .none .none

/-- Modelled from the spec: an engine whose auto-detecting default
grammar parses `SELECT 1` successfully and renders it back. -/
def autoEngine : Engine :=
  { defaultEngine with
      parseOne := fun _ _ => .ok (some select1Ast)
      parseMany := fun _ _ => .ok [some select1Ast]
      render := fun _ _ _ _ _ => "SELECT 1" }

/-- An optimizer exception for exercising the fallback path. -/
def optFailErr : SqlError :=
  ⟨"OptimizeError", "no schema information", false, []⟩

/-- An engine whose optimizer call always raises. -/
def failOptEngine : Engine :=
  { autoEngine with optimize := fun _ _ _ => .error optFailErr }

/-- An execution-time exception. -/
def execFailErr : SqlError := ⟨"ExecuteError", "boom", false, []⟩

/-- An engine whose executor call always raises, with table decoding in
place. -/
def execFailEngine : Engine :=
  { defaultEngine with
      jsonParse := fun _ => .ok (.obj [("t", .arr [])])
      executeSql := fun _ _ _ => .error execFailErr }

/-- An engine whose `json.loads` always raises a decode error. -/
def jsonFailEngine : Engine :=
  { defaultEngine with
      jsonParse := fun _ => .error "Expecting value: line 1 column 1 (char 0)" }

/-- A parse exception carrying one structured detail, as produced for
`SELECT FROM` (the offending token `FROM` starts at 1-based column 8). -/
def parseErr8 : SqlError :=
  ⟨"ParseError", "Expected table name but got FROM", true,
    [⟨"Expected table name but got FROM", 1, 8, "SELECT ", "FROM", ""⟩]⟩

/-- An engine whose parse calls raise `parseErr8`. -/
def failParseEngine : Engine :=
  { defaultEngine with
      parseOne := fun _ _ => .error parseErr8
      parseMany := fun _ _ => .error parseErr8 }

/-- The execute-tool query of the executor correctness property. -/
def sumSql : String := "SELECT SUM(v) AS total FROM t"

/-- The decoded tables object
`\x7b"t": [\x7b"id": 1, "v": 10\x7d, \x7b"id": 2, "v": 20\x7d]\x7d`. -/
def sumTablesJv : Jv :=
  .obj [("t", .arr [.obj [("id", .num 1), ("v", .num 10)],
                    .obj [("id", .num 2), ("v", .num 20)]])]

/-- The raw tables parameter text. -/
def sumTablesStr : String :=
  "\x7b\"t\": [\x7b\"id\": 1, \"v\": 10\x7d, \x7b\"id\": 2, \"v\": 20\x7d]\x7d"

/-- Modelled from the spec: the engine for the executor correctness
property — `json.loads` decodes the tables parameter and the executor
runs the fixed aggregate query `SELECT SUM(v) AS total FROM t`. -/
def sumEngine : Engine :=
  { defaultEngine with
      jsonParse := fun _ => .ok sumTablesJv
      executeSql := fun _ tables _ => specExecuteAgg ⟨"SUM", "v", "total", "t"⟩ tables }

/-! ## Helper lemmas about the tool invocations -/

theorem stdErrMsgs_ne_nil (pl gl : String) (e : SqlError) (sql : String) :
    stdErrMsgs pl gl e sql ≠ [] := by
  unfold stdErrMsgs
  split <;> simp

theorem tableStructureError_text : ∀ (entries : List (String × Jv)) (m : Msg),
    tableStructureError entries = some m → ∃ s, m = Msg.text s
  | [], m => by
      intro h
      simp [tableStructureError] at h
  | (n, v) :: rest, m => by
      intro h
      cases v with
      | arr rows =>
          simp only [tableStructureError] at h
          by_cases hr : rows.all jvIsObj = true
          · rw [if_pos hr] at h
            exact tableStructureError_text rest m h
          · rw [if_neg hr] at h
            injection h with h1
            exact ⟨_, h1.symm⟩
      | null =>
          simp only [tableStructureError] at h
          injection h with h1
          exact ⟨_, h1.symm⟩
      | bool b =>
          simp only [tableStructureError] at h
          injection h with h1
          exact ⟨_, h1.symm⟩
      | num k =>
          simp only [tableStructureError] at h
          injection h with h1
          exact ⟨_, h1.symm⟩
      | str s =>
          simp only [tableStructureError] at h
          injection h with h1
          exact ⟨_, h1.symm⟩
      | obj kvs =>
          simp only [tableStructureError] at h
          injection h with h1
          exact ⟨_, h1.symm⟩

theorem analyzeInvoke_ne_nil (p : AnalyzeParams) (eng : Engine) :
    analyzeInvoke p eng ≠ [] := by
  unfold analyzeInvoke
  split
  · simp
  · unfold analyzeCont
    cases eng.parseOne (effDialect p.dialect) p.sql with
    | error e => exact stdErrMsgs_ne_nil _ _ e p.sql
    | ok o => cases o <;> simp

theorem formatInvoke_ne_nil (p : FormatParams) (eng : Engine) :
    formatInvoke p eng ≠ [] := by
  unfold formatInvoke
  split
  · simp
  · unfold formatCont
    cases eng.parseMany (effDialect p.dialect) p.sql with
    | error e => exact stdErrMsgs_ne_nil _ _ e p.sql
    | ok stmts =>
        by_cases h1 : stmts.isEmpty
        · simp [h1]
        · simp only [h1, Bool.false_eq_true, if_false, ite_false]
          split <;> simp

theorem transpileInvoke_ne_nil (p : TranspileParams) (eng : Engine) :
    transpileInvoke p eng ≠ [] := by
  unfold transpileInvoke
  split
  · simp
  · split
    · simp
    · unfold transpileCont
      cases eng.transpile p.sql (effDialect p.sourceDialect) p.targetDialect
        p.pretty with
      | error e => exact stdErrMsgs_ne_nil _ _ e p.sql
      | ok ts => cases ts <;> simp

theorem optimizeInvoke_ne_nil (p : OptimizeParams) (eng : Engine) :
    optimizeInvoke p eng ≠ [] := by
  unfold optimizeInvoke optimizeCont
  split
  · simp
  · split
    · exact stdErrMsgs_ne_nil _ _ _ _
    · simp
    · split
      · simp
      · split <;> (dsimp only; split <;> simp [optimizeSuccessMsgs])

theorem validateInvoke_ne_nil (p : ValidateParams) (eng : Engine) :
    validateInvoke p eng ≠ [] := by
  unfold validateInvoke validateCont
  split
  · simp
  · split
    · split <;> simp
    · split <;> (dsimp only; split <;> simp)

theorem executeInvoke_ne_nil (p : ExecuteParams) (eng : Engine) :
    executeInvoke p eng ≠ [] := by
  unfold executeInvoke
  split
  · simp
  · split
    · simp
    · split
      · simp
      · split
        · split
          · simp
          · split <;> simp
        · simp

theorem executeInvoke_execError (p : ExecuteParams) (eng : Engine)
    (entries : List (String × Jv)) (e : SqlError)
    (h1 : p.sql ≠ "") (h2 : p.tablesStr ≠ "")
    (h3 : eng.jsonParse p.tablesStr = .ok (.obj entries))
    (h4 : tableStructureError entries = none)
    (h5 : eng.executeSql p.sql (.obj entries) (effDialect p.dialect) = .error e) :
    executeInvoke p eng =
      [Msg.text ("Query execution failed: " ++ e.message),
       Msg.json (.obj [("success", .bool false), ("error", .str e.message),
         ("original_sql", .str p.sql)])] := by
  simp only [executeInvoke, if_neg h1, if_neg h2, h3, h4, h5]

theorem executeInvoke_ok (p : ExecuteParams) (eng : Engine)
    (entries : List (String × Jv)) (tbl : ExecTable)
    (h1 : p.sql ≠ "") (h2 : p.tablesStr ≠ "")
    (h3 : eng.jsonParse p.tablesStr = .ok (.obj entries))
    (h4 : tableStructureError entries = none)
    (h5 : eng.executeSql p.sql (.obj entries) (effDialect p.dialect) = .ok tbl) :
    executeInvoke p eng =
      Msg.text ("Query executed successfully. Returned " ++
        toString tbl.rows.length ++ " row(s).") ::
        ((if !(tbl.rows.map (rowObj tbl.columns)).isEmpty && !tbl.columns.isEmpty then
            [Msg.text ("\n**Results:**\n" ++
              mdTable tbl.columns (tbl.rows.map (rowObj tbl.columns)))]
          else []) ++
          [Msg.json (.obj [("success", .bool true),
            ("row_count", .num (tbl.rows.length : Int)),
            ("columns", .arr (tbl.columns.map Jv.str)),
            ("data", .arr (tbl.rows.map (rowObj tbl.columns))),
            ("original_sql", .str p.sql),
            ("dialect", .str (if p.dialect = "" then "auto-detected" else p.dialect))])]) := by
  simp only [executeInvoke, if_neg h1, if_neg h2, h3, h4, h5,
    List.length_map, List.cons_append, List.nil_append]

/-! ## Claim theorems -/

/-- Claim C1 counterexample: two concrete failing invocations refute the
claim that every failure yields a structured payload with an error type,
an error message and the original SQL — the execute tool's
execution-failure payload carries `success`, `error` and `original_sql`
but no error-type field, and a tables-JSON decode failure yields only a
plain text message with no structured payload at all. -/
theorem c1_counterexample :
    (executeInvoke ⟨"SELECT 1", "x", ""⟩ execFailEngine =
      [Msg.text "Query execution failed: boom",
       Msg.json (.obj [("success", .bool false), ("error", .str "boom"),
         ("original_sql", .str "SELECT 1")])] ∧
     jvHasKey (.obj [("success", .bool false), ("error", .str "boom"),
       ("original_sql", .str "SELECT 1")]) "error_type" = false) ∧
    executeInvoke ⟨"SELECT 1", "nonsense", ""⟩ jsonFailEngine =
      [Msg.text "Invalid tables JSON: Expecting value: line 1 column 1 (char 0)"] :=
  ⟨⟨rfl, rfl⟩, rfl⟩

/-- Claim C1 (amended): every tool invocation terminates by yielding at
least one message and no engine exception escapes.  Engine failures
caught by the exception handlers yield a text message plus a JSON
payload carrying an error type, an error message and the original SQL —
validate's handlers include them alongside its `valid` flag — except the
execute tool's query-execution failures, whose payload carries
`success`, the error message and the original SQL but no error type.
Missing-parameter guards and the execute tool's tables validation
failures yield only a single plain text message. -/
theorem c1_amended :
    (∀ (p : AnalyzeParams) (eng : Engine), analyzeInvoke p eng ≠ []) ∧
    (∀ (p : FormatParams) (eng : Engine), formatInvoke p eng ≠ []) ∧
    (∀ (p : TranspileParams) (eng : Engine), transpileInvoke p eng ≠ []) ∧
    (∀ (p : OptimizeParams) (eng : Engine), optimizeInvoke p eng ≠ []) ∧
    (∀ (p : ValidateParams) (eng : Engine), validateInvoke p eng ≠ []) ∧
    (∀ (p : ExecuteParams) (eng : Engine), executeInvoke p eng ≠ []) ∧
    (∀ (e : SqlError) (sql : String),
      jvHasKey (stdErrObj e sql) "error_type" = true ∧
      jvHasKey (stdErrObj e sql) "error_message" = true ∧
      jvHasKey (stdErrObj e sql) "original_sql" = true) ∧
    (∀ (p : AnalyzeParams) (eng : Engine) (e : SqlError), p.sql ≠ "" →
      eng.parseOne (effDialect p.dialect) p.sql = .error e →
      analyzeInvoke p eng =
        stdErrMsgs "SQL Parse Error: " "Error analyzing SQL: " e p.sql) ∧
    (∀ (p : FormatParams) (eng : Engine) (e : SqlError), p.sql ≠ "" →
      eng.parseMany (effDialect p.dialect) p.sql = .error e →
      formatInvoke p eng =
        stdErrMsgs "SQL Parse Error: " "Error formatting SQL: " e p.sql) ∧
    (∀ (p : TranspileParams) (eng : Engine) (e : SqlError), p.sql ≠ "" →
      p.targetDialect ≠ "" →
      eng.transpile p.sql (effDialect p.sourceDialect) p.targetDialect
        p.pretty = .error e →
      transpileInvoke p eng =
        stdErrMsgs "SQL Parse Error: " "Error transpiling SQL: " e p.sql) ∧
    (∀ (p : OptimizeParams) (eng : Engine) (e : SqlError), p.sql ≠ "" →
      eng.parseOne (effDialect p.dialect) p.sql = .error e →
      optimizeInvoke p eng =
        stdErrMsgs "SQL Parse Error: " "Error optimizing SQL: " e p.sql) ∧
    (∀ (p : ValidateParams) (eng : Engine) (e : SqlError), p.sql ≠ "" →
      eng.parseMany (effDialect p.dialect) p.sql = .error e →
      e.isParseError = true →
      validateInvoke p eng =
        [Msg.text ("✗ SQL Validation Failed: " ++ e.message),
         Msg.json (validateParseErrObj e p.sql p.dialect)] ∧
      jvLookup (validateParseErrObj e p.sql p.dialect) "error_type" =
        some (.str "ParseError") ∧
      jvLookup (validateParseErrObj e p.sql p.dialect) "error_message" =
        some (.str e.message) ∧
      jvLookup (validateParseErrObj e p.sql p.dialect) "original_sql" =
        some (.str p.sql)) ∧
    (∀ (p : ValidateParams) (eng : Engine) (e : SqlError), p.sql ≠ "" →
      eng.parseMany (effDialect p.dialect) p.sql = .error e →
      e.isParseError = false →
      validateInvoke p eng =
        [Msg.text ("Error validating SQL: " ++ e.message),
         Msg.json (.obj [("valid", .bool false), ("error_type", .str e.name),
           ("error_message", .str e.message),
           ("original_sql", .str p.sql)])] ∧
      jvLookup (.obj [("valid", .bool false), ("error_type", .str e.name),
        ("error_message", .str e.message), ("original_sql", .str p.sql)])
        "error_type" = some (.str e.name) ∧
      jvLookup (.obj [("valid", .bool false), ("error_type", .str e.name),
        ("error_message", .str e.message), ("original_sql", .str p.sql)])
        "error_message" = some (.str e.message) ∧
      jvLookup (.obj [("valid", .bool false), ("error_type", .str e.name),
        ("error_message", .str e.message), ("original_sql", .str p.sql)])
        "original_sql" = some (.str p.sql)) ∧
    (∀ (p : ExecuteParams) (eng : Engine) (entries : List (String × Jv))
      (e : SqlError), p.sql ≠ "" → p.tablesStr ≠ "" →
      eng.jsonParse p.tablesStr = .ok (.obj entries) →
      tableStructureError entries = none →
      eng.executeSql p.sql (.obj entries) (effDialect p.dialect) = .error e →
      executeInvoke p eng =
        [Msg.text ("Query execution failed: " ++ e.message),
         Msg.json (.obj [("success", .bool false), ("error", .str e.message),
           ("original_sql", .str p.sql)])] ∧
      jvHasKey (.obj [("success", .bool false), ("error", .str e.message),
        ("original_sql", .str p.sql)]) "error_type" = false) ∧
    (∀ (d : String) (eng : Engine),
      analyzeInvoke ⟨"", d⟩ eng = [Msg.text "SQL query is required."]) ∧
    (∀ (d : String) (i n : Bool) (eng : Engine),
      formatInvoke ⟨"", d, i, n⟩ eng = [Msg.text "SQL query is required."]) ∧
    (∀ (sd td : String) (pr : Bool) (eng : Engine),
      transpileInvoke ⟨"", sd, td, pr⟩ eng =
        [Msg.text "SQL query is required."]) ∧
    (∀ (d ss : String) (eng : Engine),
      optimizeInvoke ⟨"", d, ss⟩ eng = [Msg.text "SQL query is required."]) ∧
    (∀ (d : String) (eng : Engine),
      validateInvoke ⟨"", d⟩ eng = [Msg.text "SQL query is required."]) ∧
    (∀ (ts d : String) (eng : Engine),
      executeInvoke ⟨"", ts, d⟩ eng = [Msg.text "SQL query is required."]) ∧
    (∀ (sql d : String) (eng : Engine), sql ≠ "" →
      executeInvoke ⟨sql, "", d⟩ eng = [Msg.text "Data tables are required."]) ∧
    (∀ (sql sd : String) (pr : Bool) (eng : Engine), sql ≠ "" →
      transpileInvoke ⟨sql, sd, "", pr⟩ eng =
        [Msg.text "Target dialect is required."]) ∧
    (∀ (p : ExecuteParams) (eng : Engine) (emsg : String), p.sql ≠ "" →
      p.tablesStr ≠ "" → eng.jsonParse p.tablesStr = .error emsg →
      executeInvoke p eng = [Msg.text ("Invalid tables JSON: " ++ emsg)]) ∧
    (∀ (p : ExecuteParams) (eng : Engine) (tv : Jv), p.sql ≠ "" →
      p.tablesStr ≠ "" → eng.jsonParse p.tablesStr = .ok tv →
      jvIsObj tv = false →
      executeInvoke p eng =
        [Msg.text "Tables must be a JSON object with table names as keys."]) ∧
    (∀ (p : ExecuteParams) (eng : Engine) (entries : List (String × Jv))
      (m : Msg), p.sql ≠ "" → p.tablesStr ≠ "" →
      eng.jsonParse p.tablesStr = .ok (.obj entries) →
      tableStructureError entries = some m →
      executeInvoke p eng = [m] ∧ ∃ s, m = Msg.text s) := by
  refine ⟨analyzeInvoke_ne_nil, formatInvoke_ne_nil, transpileInvoke_ne_nil,
    optimizeInvoke_ne_nil, validateInvoke_ne_nil, executeInvoke_ne_nil,
    ?_, ?_, ?_, ?_, ?_, ?_, ?_, ?_, ?_, ?_, ?_, ?_, ?_, ?_, ?_, ?_, ?_, ?_, ?_⟩
  · intro e sql
    exact ⟨rfl, rfl, rfl⟩
  · intro p eng e hsql hp
    simp [analyzeInvoke, hsql, analyzeCont, hp]
  · intro p eng e hsql hp
    simp [formatInvoke, hsql, formatCont, hp]
  · intro p eng e hsql htd hp
    simp [transpileInvoke, hsql, htd, transpileCont, hp]
  · intro p eng e hsql hp
    simp [optimizeInvoke, hsql, optimizeCont, hp]
  · intro p eng e hsql hp hpe
    refine ⟨?_, rfl, rfl, rfl⟩
    simp [validateInvoke, hsql, validateCont, hp, hpe]
  · intro p eng e hsql hp hpe
    refine ⟨?_, rfl, rfl, rfl⟩
    simp [validateInvoke, hsql, validateCont, hp, hpe]
  · intro p eng entries e h1 h2 h3 h4 h5
    exact ⟨executeInvoke_execError p eng entries e h1 h2 h3 h4 h5, rfl⟩
  · intro d eng
    rfl
  · intro d i n eng
    rfl
  · intro sd td pr eng
    rfl
  · intro d ss eng
    rfl
  · intro d eng
    rfl
  · intro ts d eng
    rfl
  · intro sql d eng h
    simp [executeInvoke, h]
  · intro sql sd pr eng h
    simp [transpileInvoke, h]
  · intro p eng emsg h1 h2 h3
    simp [executeInvoke, h1, h2, h3]
  · intro p eng tv h1 h2 h3 h4
    cases tv with
    | obj kvs => exact absurd h4 (by simp [jvIsObj])
    | null => simp [executeInvoke, h1, h2, h3]
    | bool b => simp [executeInvoke, h1, h2, h3]
    | num k => simp [executeInvoke, h1, h2, h3]
    | str s => simp [executeInvoke, h1, h2, h3]
    | arr xs => simp [executeInvoke, h1, h2, h3]
  · intro p eng entries m h1 h2 h3 h4
    refine ⟨?_, tableStructureError_text entries m h4⟩
    simp [executeInvoke, h1, h2, h3, h4]

/-- Claim C1 amended, witnessed at concrete inputs: a parse failure on
the analyze tool and on the validate tool yields the structured
payloads with their error type, the execute-tool execution failure
reproduces the counterexample payload, and the empty-sql guard and the
tables-JSON decode failure each yield a single plain text message. -/
theorem c1_amended_witness :
    analyzeInvoke ⟨"SELECT FROM", ""⟩ failParseEngine =
      stdErrMsgs "SQL Parse Error: " "Error analyzing SQL: " parseErr8
        "SELECT FROM" ∧
    validateInvoke ⟨"SELECT FROM", ""⟩ failParseEngine =
      [Msg.text ("✗ SQL Validation Failed: " ++ parseErr8.message),
       Msg.json (validateParseErrObj parseErr8 "SELECT FROM" "")] ∧
    jvLookup (validateParseErrObj parseErr8 "SELECT FROM" "") "error_type" =
      some (.str "ParseError") ∧
    executeInvoke ⟨"SELECT 1", "x", ""⟩ execFailEngine =
      [Msg.text "Query execution failed: boom",
       Msg.json (.obj [("success", .bool false), ("error", .str "boom"),
         ("original_sql", .str "SELECT 1")])] ∧
    analyzeInvoke ⟨"", ""⟩ defaultEngine = [Msg.text "SQL query is required."] ∧
    executeInvoke ⟨"SELECT 1", "nonsense", ""⟩ jsonFailEngine =
      [Msg.text "Invalid tables JSON: Expecting value: line 1 column 1 (char 0)"] := by
  obtain ⟨h1, h2, h3, h4, h5, h6, h7, h8, h9, h10, h11, h12, h13, h14, h15,
    h16, h17, h18, h19, h20, h21, h22, h23, h24, h25⟩ := c1_amended
  refine ⟨h8 ⟨"SELECT FROM", ""⟩ failParseEngine parseErr8 (by decide) rfl,
    ?_, ?_, ?_, ?_, ?_⟩
  · exact (h12 ⟨"SELECT FROM", ""⟩ failParseEngine parseErr8 (by decide)
      rfl rfl).1
  · exact (h12 ⟨"SELECT FROM", ""⟩ failParseEngine parseErr8 (by decide)
      rfl rfl).2.1
  · exact (h14 ⟨"SELECT 1", "x", ""⟩ execFailEngine [("t", .arr [])]
      execFailErr (by decide) (by decide) rfl rfl rfl).1
  · exact h15 "" defaultEngine
  · exact h23 ⟨"SELECT 1", "nonsense", ""⟩ jsonFailEngine
      "Expecting value: line 1 column 1 (char 0)" (by decide) (by decide) rfl

/-- Claim C2 counterexample: parsing `SELECT 1` and optimizing with no
schema succeeds, and the response then carries no note at all — the
partial-optimization note is attached only when the optimizer call
raises, contrary to the claim that it is always present. -/
theorem c2_counterexample :
    optimizeInvoke ⟨"SELECT 1", "", ""⟩ autoEngine =
      [Msg.text "Successfully optimized SQL query",
       Msg.text "\n**Optimized SQL:**\n```sql\nSELECT 1\n```",
       Msg.json (.obj [("original_sql", .str "SELECT 1"),
         ("optimized_sql", .str "SELECT 1"),
         ("dialect", .str "auto-detected"),
         ("schema_provided", .bool false),
         ("optimization_applied", .bool true)])] ∧
    jvHasKey (.obj [("original_sql", .str "SELECT 1"),
      ("optimized_sql", .str "SELECT 1"),
      ("dialect", .str "auto-detected"),
      ("schema_provided", .bool false),
      ("optimization_applied", .bool true)]) "note" = false :=
  ⟨rfl, rfl⟩

/-- Claim C2 (amended): for every parseable statement, schema-absent
optimization returns a successful (non-error) optimized result; the
response carries the partial-optimization note exactly when the
underlying optimizer call raises, in which case the original AST is
rendered. -/
theorem c2_amended (p : OptimizeParams) (eng : Engine) (ast : SqlAst)
    (hsql : p.sql ≠ "") (hschema : p.schemaStr = "")
    (hparse : eng.parseOne (effDialect p.dialect) p.sql = .ok (some ast)) :
    (∀ opt, eng.optimize ast none (effDialect p.dialect) = .ok opt →
      optimizeInvoke p eng =
        optimizeSuccessMsgs p.sql p.dialect
          (eng.render opt (effDialect p.dialect) true false false) false none ∧
      jvHasKey (optimizeResponse p.sql p.dialect
        (eng.render opt (effDialect p.dialect) true false false) false none)
        "note" = false) ∧
    (∀ e, eng.optimize ast none (effDialect p.dialect) = .error e →
      optimizeInvoke p eng =
        optimizeSuccessMsgs p.sql p.dialect
          (eng.render ast (effDialect p.dialect) true false false) false
          (some (optimizeNote e)) ∧
      jvLookup (optimizeResponse p.sql p.dialect
        (eng.render ast (effDialect p.dialect) true false false) false
        (some (optimizeNote e))) "note" = some (.str (optimizeNote e))) := by
  constructor
  · intro opt hopt
    constructor
    · simp [optimizeInvoke, hsql, optimizeCont, hparse, hschema, hopt]
    · rfl
  · intro e hopt
    constructor
    · simp [optimizeInvoke, hsql, optimizeCont, hparse, hschema, hopt]
    · rfl

/-- Claim C2 amended, witnessed: the success branch at `SELECT 1` with
the auto-detect engine, and the failure branch with the failing
optimizer engine. -/
theorem c2_amended_witness :
    (optimizeInvoke ⟨"SELECT 1", "", ""⟩ autoEngine =
      optimizeSuccessMsgs "SELECT 1" "" "SELECT 1" false none ∧
     jvHasKey (optimizeResponse "SELECT 1" "" "SELECT 1" false none)
       "note" = false) ∧
    (optimizeInvoke ⟨"SELECT 1", "", ""⟩ failOptEngine =
      optimizeSuccessMsgs "SELECT 1" "" "SELECT 1" false
        (some (optimizeNote optFailErr)) ∧
     jvLookup (optimizeResponse "SELECT 1" "" "SELECT 1" false
       (some (optimizeNote optFailErr))) "note" =
         some (.str (optimizeNote optFailErr))) :=
  ⟨(c2_amended ⟨"SELECT 1", "", ""⟩ autoEngine select1Ast (by decide) rfl
      rfl).1 select1Ast rfl,
   (c2_amended ⟨"SELECT 1", "", ""⟩ failOptEngine select1Ast (by decide) rfl
      rfl).2 optFailErr rfl⟩

/-- Claim C3: when the optimizer call fails on a parsed statement (no
schema supplied), the tool returns a success response, not an error, and
the optimized SQL it emits is exactly the original parsed AST rendered,
with the partial-optimization note attached. -/
theorem c3_optimize_fallback (p : OptimizeParams) (eng : Engine)
    (ast : SqlAst) (e : SqlError)
    (hsql : p.sql ≠ "") (hschema : p.schemaStr = "")
    (hparse : eng.parseOne (effDialect p.dialect) p.sql = .ok (some ast))
    (hopt : eng.optimize ast none (effDialect p.dialect) = .error e) :
    optimizeInvoke p eng =
      optimizeSuccessMsgs p.sql p.dialect
        (eng.render ast (effDialect p.dialect) true false false) false
        (some (optimizeNote e)) ∧
    jvLookup (optimizeResponse p.sql p.dialect
      (eng.render ast (effDialect p.dialect) true false false) false
      (some (optimizeNote e))) "optimized_sql" =
        some (.str (eng.render ast (effDialect p.dialect) true false false)) := by
  constructor
  · simp [optimizeInvoke, hsql, optimizeCont, hparse, hschema, hopt]
  · rfl

/-- Claim C3, witnessed: the failing-optimizer engine on `SELECT 1`
returns the unmodified parsed AST rendered, with a note. -/
theorem c3_witness :
    optimizeInvoke ⟨"SELECT 1", "", ""⟩ failOptEngine =
      optimizeSuccessMsgs "SELECT 1" "" "SELECT 1" false
        (some (optimizeNote optFailErr)) ∧
    jvLookup (optimizeResponse "SELECT 1" "" "SELECT 1" false
      (some (optimizeNote optFailErr))) "optimized_sql" =
        some (.str "SELECT 1") :=
  c3_optimize_fallback ⟨"SELECT 1", "", ""⟩ failOptEngine select1Ast
    optFailErr (by decide) rfl rfl rfl

/-- Claim C4: column extraction deduplicates by the key
`(name, table-qualifier, effective-alias)` — whenever the same qualified
column occurs at least twice in the AST, the extraction result contains
exactly one entry for that key. -/
theorem c4_column_dedup (root : SqlAst) (info : ColumnInfo)
    (h : 2 ≤ (columnStream root).count info) :
    (extractColumns root).count info = 1 :=
  count_dedup_eq_one (columnStream root) info
    (List.count_pos_iff.mp (Nat.lt_of_lt_of_le (by decide) h))

/-- Claim C4, witnessed on the AST of `SELECT a.x, a.x FROM t a`: the
qualified column `a.x` occurs twice in the stream and exactly once in
the extraction result. -/
theorem c4_witness :
    2 ≤ (columnStream dupColAst).count ⟨"x", some "a", "x"⟩ ∧
    (extractColumns dupColAst).count ⟨"x", some "a", "x"⟩ = 1 :=
  ⟨by decide,
   c4_column_dedup dupColAst ⟨"x", some "a", "x"⟩ (by decide)⟩

/-- Claim C6: metadata extraction reports one join entry per join node
(no deduplication), and a join whose kind attribute is empty — a bare
`JOIN ... ON ...` — is reported with kind `"INNER"`. -/
theorem c6_join_entries (root : SqlAst) :
    (extractJoins root).length = (joinStream root).length ∧
    (∀ j ∈ joinStream root, j.1 = "" → (mkJoinInfo j).type = "INNER") := by
  constructor
  · simp [extractJoins]
  · intro j _ hj
    obtain ⟨k, c, oc⟩ := j
    subst hj
    rfl

/-- Claim C6, witnessed on the AST of
`SELECT * FROM a JOIN b ON a.id = b.id`: exactly one join entry is
produced and its kind is `"INNER"`. -/
theorem c6_witness :
    (extractJoins bareJoinAst).length = (joinStream bareJoinAst).length ∧
    (mkJoinInfo ("", SqlAst.tableNode "b" "" "" "",
      OptSqlAst.some (.binop "=" (.column "id" "a") (.column "id" "b")))).type =
        "INNER" ∧
    extractJoins bareJoinAst = [⟨"INNER", "b", some "a.id = b.id"⟩] :=
  ⟨(c6_join_entries bareJoinAst).1,
   (c6_join_entries bareJoinAst).2
     ("", SqlAst.tableNode "b" "" "" "",
       OptSqlAst.some (.binop "=" (.column "id" "a") (.column "id" "b")))
     (List.mem_singleton_self _) rfl,
   rfl⟩

/-- The mini-dialect source text `SELECT a.x , a.x FROM t a`. -/
def c5src : MiniSql.Text := "SELECT a.x , a.x FROM t a".toList

/-- The statement parsed from `c5src`. -/
def c5ast : MiniSql.MAst :=
  ⟨[⟨some ['a'], ['x']⟩, ⟨some ['a'], ['x']⟩], ['t'], some ['a']⟩

/-- Claim C5: for any AST produced by the parser, rendering it and
re-parsing the rendered text yields an AST whose extracted metadata
equals that of the original (the re-parse in fact returns the very same
AST). -/
theorem c5_round_trip (s : MiniSql.Text) (a : MiniSql.MAst)
    (h : MiniSql.parse s = .ok a) :
    (MiniSql.parse (MiniSql.render a)).map MiniSql.extract =
      Except.ok (MiniSql.extract a) := by
  rw [MiniSql.parse_render_of_parse h]
  rfl

/-- Claim C5, witnessed on `SELECT a.x , a.x FROM t a`: the parse
succeeds, the round trip preserves the metadata, and the metadata has
the duplicate column deduplicated. -/
theorem c5_witness :
    MiniSql.parse c5src = Except.ok c5ast ∧
    (MiniSql.parse (MiniSql.render c5ast)).map MiniSql.extract =
      Except.ok (MiniSql.extract c5ast) ∧
    (MiniSql.extract c5ast).columns = [⟨['x'], some ['a'], ['x']⟩] :=
  ⟨rfl, c5_round_trip c5src c5ast rfl, rfl⟩

/-- Claim C7: executing `SELECT SUM(v) AS total FROM t` against
`t = [(id 1, v 10), (id 2, v 20)]` yields a successful response whose
relation has exactly one column `total` and one row with value 30. -/
theorem c7_execute_sum :
    executeInvoke ⟨sumSql, sumTablesStr, ""⟩ sumEngine =
      [Msg.text "Query executed successfully. Returned 1 row(s).",
       Msg.text "\n**Results:**\n| total |\n| --- |\n| 30 |",
       Msg.json (.obj [("success", .bool true), ("row_count", .num 1),
         ("columns", .arr [.str "total"]),
         ("data", .arr [.obj [("total", .num 30)]]),
         ("original_sql", .str sumSql),
         ("dialect", .str "auto-detected")])] := by
  have h := executeInvoke_ok ⟨sumSql, sumTablesStr, ""⟩ sumEngine
    [("t", .arr [.obj [("id", .num 1), ("v", .num 10)],
                 .obj [("id", .num 2), ("v", .num 20)]])]
    ⟨["total"], [[.num 30]]⟩ (by decide) (by decide) rfl rfl rfl
  rw [h]
  have hser : serializeVal (Jv.num 30) = Jv.num 30 := by simp [serializeVal]
  have hrow : rowObj ["total"] [Jv.num 30] = Jv.obj [("total", Jv.num 30)] := by
    show Jv.obj [("total", serializeVal (Jv.num 30))] = _
    rw [hser]
  have hpy : pyStr (Jv.num 30) = "30" := by
    simp only [pyStr]
    rfl
  have h1 : mdTable ["total"] [Jv.obj [("total", Jv.num 30)]] =
      String.intercalate "\n" ["| total |", "| --- |",
        "| " ++ String.intercalate " | " [pyStr (Jv.num 30)] ++ " |"] ++ "" :=
    rfl
  have hmd : mdTable ["total"] [Jv.obj [("total", Jv.num 30)]] =
      "| total |\n| --- |\n| 30 |" := by
    rw [h1, hpy]
    rfl
  simp only [List.map_cons, List.map_nil, hrow]
  rw [hmd]
  rfl

/-- Claim C8: when validation fails with a parse error carrying
structured details, the error payload includes, for each underlying
error, its description, 1-based line and column (1-based by the engine
diagnostic invariant), and the three-part context window. -/
theorem c8_parse_error_details (p : ValidateParams) (eng : Engine)
    (e : SqlError) (hsql : p.sql ≠ "")
    (hparse : eng.parseMany (effDialect p.dialect) p.sql = .error e)
    (hpe : e.isParseError = true) (hne : e.errors ≠ [])
    (hpos : ∀ d ∈ e.errors, 1 ≤ d.line ∧ 1 ≤ d.col) :
    validateInvoke p eng =
      [Msg.text ("✗ SQL Validation Failed: " ++ e.message),
       Msg.json (validateParseErrObj e p.sql p.dialect)] ∧
    jvLookup (validateParseErrObj e p.sql p.dialect) "error_details" =
      some (.arr (e.errors.map pedJv)) ∧
    ∀ d ∈ e.errors,
      jvLookup (pedJv d) "description" = some (.str d.description) ∧
      jvLookup (pedJv d) "line" = some (.num d.line) ∧
      jvLookup (pedJv d) "col" = some (.num d.col) ∧
      jvLookup (pedJv d) "start_context" = some (.str d.startContext) ∧
      jvLookup (pedJv d) "highlight" = some (.str d.highlight) ∧
      jvLookup (pedJv d) "end_context" = some (.str d.endContext) ∧
      1 ≤ d.line ∧ 1 ≤ d.col := by
  have hie : e.errors.isEmpty = false := by simp [List.isEmpty_iff, hne]
  refine ⟨?_, ?_, ?_⟩
  · simp [validateInvoke, hsql, validateCont, hparse, hpe]
  · simp [validateParseErrObj, hie, jvLookup, List.lookup]
  · intro d hd
    exact ⟨rfl, rfl, rfl, rfl, rfl, rfl, (hpos d hd).1, (hpos d hd).2⟩

/-- The single structured detail of `parseErr8`. -/
def parseErrDetail8 : ParseErrDetail :=
  ⟨"Expected table name but got FROM", 1, 8, "SELECT ", "FROM", ""⟩

/-- Claim C8, witnessed on `SELECT FROM` with the failing-parse engine:
the payload carries the detail list and the detail highlights `FROM` at
line 1, column 8, with its context window. -/
theorem c8_witness :
    validateInvoke ⟨"SELECT FROM", ""⟩ failParseEngine =
      [Msg.text ("✗ SQL Validation Failed: " ++ parseErr8.message),
       Msg.json (validateParseErrObj parseErr8 "SELECT FROM" "")] ∧
    jvLookup (validateParseErrObj parseErr8 "SELECT FROM" "")
      "error_details" = some (.arr (parseErr8.errors.map pedJv)) ∧
    (jvLookup (pedJv parseErrDetail8) "line" = some (.num 1) ∧
     jvLookup (pedJv parseErrDetail8) "col" = some (.num 8) ∧
     jvLookup (pedJv parseErrDetail8) "highlight" = some (.str "FROM") ∧
     jvLookup (pedJv parseErrDetail8) "start_context" = some (.str "SELECT ") ∧
     jvLookup (pedJv parseErrDetail8) "end_context" = some (.str "")) := by
  have h := c8_parse_error_details ⟨"SELECT FROM", ""⟩ failParseEngine
    parseErr8 (by decide) rfl rfl (by decide)
    (by intro d hd; rcases List.mem_singleton.mp hd with rfl; exact ⟨by decide, by decide⟩)
  have hd := h.2.2 parseErrDetail8 (List.mem_singleton_self _)
  exact ⟨h.1, h.2.1, hd.2.1, hd.2.2.1, hd.2.2.2.2.1, hd.2.2.2.1, hd.2.2.2.2.2.1⟩

/-- Claim C9: an empty dialect string selects auto-detection — the
engine is called with no dialect — for every tool taking a dialect
selector (analyze, format, validate, optimize, transpile's source
dialect, and execute, whose result depends on the executor only through
its no-dialect behaviour), and parsing `SELECT 1` with the empty
dialect against the default grammar succeeds. -/
theorem c9_auto_detect :
    effDialect "" = none ∧
    (∀ (sql : String) (eng : Engine), sql ≠ "" →
      analyzeInvoke ⟨sql, ""⟩ eng = analyzeCont sql "" (eng.parseOne none sql)) ∧
    (∀ (sql : String) (i n : Bool) (eng : Engine), sql ≠ "" →
      formatInvoke ⟨sql, "", i, n⟩ eng =
        formatCont ⟨sql, "", i, n⟩ eng (eng.parseMany none sql)) ∧
    (∀ (sql : String) (eng : Engine), sql ≠ "" →
      validateInvoke ⟨sql, ""⟩ eng =
        validateCont ⟨sql, ""⟩ eng (eng.parseMany none sql)) ∧
    (∀ (sql ss : String) (eng : Engine), sql ≠ "" →
      optimizeInvoke ⟨sql, "", ss⟩ eng =
        optimizeCont ⟨sql, "", ss⟩ eng (eng.parseOne none sql)) ∧
    (∀ (sql td : String) (pr : Bool) (eng : Engine), sql ≠ "" → td ≠ "" →
      transpileInvoke ⟨sql, "", td, pr⟩ eng =
        transpileCont ⟨sql, "", td, pr⟩ (eng.transpile sql none td pr)) ∧
    (∀ (sql ts : String) (eng : Engine),
      executeInvoke ⟨sql, ts, ""⟩ eng =
        executeInvoke ⟨sql, ts, ""⟩
          { eng with executeSql := fun q t _ => eng.executeSql q t none }) ∧
    validateInvoke ⟨"SELECT 1", ""⟩ autoEngine =
      [Msg.text "✓ SQL is valid! Found 1 statement(s).",
       Msg.text "Statement types: Select",
       Msg.json (.obj [("valid", .bool true), ("dialect", .str "auto-detected"),
         ("statement_count", .num 1),
         ("statements", .arr [.obj [("index", .num 1), ("type", .str "Select"),
           ("sql", .str "SELECT 1")]]),
         ("warnings", .arr []), ("original_sql", .str "SELECT 1")])] := by
  refine ⟨rfl, ?_, ?_, ?_, ?_, ?_, ?_, ?_⟩
  · intro sql eng h
    simp [analyzeInvoke, h, effDialect]
  · intro sql i n eng h
    simp [formatInvoke, h, effDialect]
  · intro sql eng h
    simp [validateInvoke, h, effDialect]
  · intro sql ss eng h
    simp [optimizeInvoke, h, effDialect]
  · intro sql td pr eng h htd
    simp [transpileInvoke, h, htd, effDialect]
  · intro sql ts eng
    rfl
  · rfl

/-- Claim C9, witnessed: the empty dialect maps to the auto-detect
marker, the analyze tool with empty dialect calls the engine with no
dialect, the execute tool's result depends on the executor only through
its no-dialect behaviour, and `SELECT 1` parses successfully under the
default grammar. -/
theorem c9_witness :
    effDialect "" = none ∧
    analyzeInvoke ⟨"SELECT 1", ""⟩ autoEngine =
      analyzeCont "SELECT 1" "" (autoEngine.parseOne none "SELECT 1") ∧
    executeInvoke ⟨"SELECT 1", "x", ""⟩ defaultEngine =
      executeInvoke ⟨"SELECT 1", "x", ""⟩
        { defaultEngine with
            executeSql := fun q t _ => defaultEngine.executeSql q t none } ∧
    validateInvoke ⟨"SELECT 1", ""⟩ autoEngine =
      [Msg.text "✓ SQL is valid! Found 1 statement(s).",
       Msg.text "Statement types: Select",
       Msg.json (.obj [("valid", .bool true), ("dialect", .str "auto-detected"),
         ("statement_count", .num 1),
         ("statements", .arr [.obj [("index", .num 1), ("type", .str "Select"),
           ("sql", .str "SELECT 1")]]),
         ("warnings", .arr []), ("original_sql", .str "SELECT 1")])] :=
  ⟨c9_auto_detect.1,
   c9_auto_detect.2.1 "SELECT 1" autoEngine (by decide),
   c9_auto_detect.2.2.2.2.2.2.1 "SELECT 1" "x" defaultEngine,
   c9_auto_detect.2.2.2.2.2.2.2⟩

/-- Claim C10: a missing or empty `sql` parameter makes every tool yield
exactly the single message `SQL query is required.` without consulting
the engine; the execute tool likewise requires a non-empty tables
parameter and the transpile tool a non-empty target dialect. -/
theorem c10_required_params :
    (∀ (d : String) (eng : Engine),
      analyzeInvoke ⟨"", d⟩ eng = [Msg.text "SQL query is required."]) ∧
    (∀ (d : String) (i n : Bool) (eng : Engine),
      formatInvoke ⟨"", d, i, n⟩ eng = [Msg.text "SQL query is required."]) ∧
    (∀ (sd td : String) (pr : Bool) (eng : Engine),
      transpileInvoke ⟨"", sd, td, pr⟩ eng = [Msg.text "SQL query is required."]) ∧
    (∀ (d ss : String) (eng : Engine),
      optimizeInvoke ⟨"", d, ss⟩ eng = [Msg.text "SQL query is required."]) ∧
    (∀ (d : String) (eng : Engine),
      validateInvoke ⟨"", d⟩ eng = [Msg.text "SQL query is required."]) ∧
    (∀ (ts d : String) (eng : Engine),
      executeInvoke ⟨"", ts, d⟩ eng = [Msg.text "SQL query is required."]) ∧
    (∀ (sql d : String) (eng : Engine), sql ≠ "" →
      executeInvoke ⟨sql, "", d⟩ eng = [Msg.text "Data tables are required."]) ∧
    (∀ (sql sd : String) (pr : Bool) (eng : Engine), sql ≠ "" →
      transpileInvoke ⟨sql, sd, "", pr⟩ eng =
        [Msg.text "Target dialect is required."]) := by
  refine ⟨fun d eng => rfl, fun d i n eng => rfl, fun sd td pr eng => rfl,
    fun d ss eng => rfl, fun d eng => rfl, fun ts d eng => rfl, ?_, ?_⟩
  · intro sql d eng h
    simp [executeInvoke, h]
  · intro sql sd pr eng h
    simp [transpileInvoke, h]

/-- Claim C10, witnessed at concrete inputs for all three guard
messages, with the default engine. -/
theorem c10_witness :
    analyzeInvoke ⟨"", "mysql"⟩ defaultEngine =
      [Msg.text "SQL query is required."] ∧
    executeInvoke ⟨"SELECT 1", "", ""⟩ defaultEngine =
      [Msg.text "Data tables are required."] ∧
    transpileInvoke ⟨"SELECT 1", "", "", true⟩ defaultEngine =
      [Msg.text "Target dialect is required."] :=
  ⟨c10_required_params.1 "mysql" defaultEngine,
   c10_required_params.2.2.2.2.2.2.1 "SELECT 1" "" defaultEngine (by decide),
   c10_required_params.2.2.2.2.2.2.2 "SELECT 1" "" true defaultEngine
     (by decide)⟩
